import Mathlib

/-!
Shallow embedding of the BattleClaw game engine
(src/src/game-engine.ts, src/src/database.ts, src/src/types.ts)
together with proofs about the engine's specified behaviour.

Modelling conventions:
* JS numbers holding integer quantities become `Nat` (counters, timestamps,
  xp, levels) or `Int` (coordinates and hit points, which are subtracted).
* `Math.random()`-derived data is passed in explicitly: spawn-candidate
  streams, damage rolls, resource picks.  `Date.now()` becomes a `now`
  parameter.  `uuid()` becomes an explicit id parameter.
* The SQLite store becomes lists inside `GameState`; `UPDATE ... WHERE id`
  becomes `setAgent`, `INSERT` becomes list append.
* Fallible engine calls return `Except String result × GameState`, mirroring
  the `{ok:true,...} | {ok:false,error}` result shape; the returned state is
  unchanged on error.
* Event payload objects (`data`) and uuids of events are elided: events keep
  their kind, actor, target and timestamp, which is all the claims observe.
-/

namespace BattleClaw

/-! ## Types (src/src/types.ts) -/

inductive Terrain where
  | OPEN
  | WALL
  | WATER
  | MOUNTAIN
deriving DecidableEq, Repr

inductive ResourceType where
  | ENERGY_CRYSTAL
  | METAL_ORE
  | BIOMASS
  | ARTIFACT
deriving DecidableEq, Repr

inductive SkillType where
  | might
  | fortitude
  | agility
  | perception
  | harvesting
deriving DecidableEq, Repr

structure SkillSet where
  might : Nat
  fortitude : Nat
  agility : Nat
  perception : Nat
  harvesting : Nat
deriving DecidableEq, Repr

inductive ActionKind where
  | move
  | attack
  | gather
  | communicate
  | use_skill
deriving DecidableEq, Repr

def BASE_COOLDOWNS : ActionKind → Nat
  | ActionKind.move => 1000
  | ActionKind.attack => 3000
  | ActionKind.gather => 2000
  | ActionKind.communicate => 500
  | ActionKind.use_skill => 5000

def actionName : ActionKind → String
  | ActionKind.move => "move"
  | ActionKind.attack => "attack"
  | ActionKind.gather => "gather"
  | ActionKind.communicate => "communicate"
  | ActionKind.use_skill => "use_skill"

structure CooldownState where
  move : Nat
  attack : Nat
  gather : Nat
  communicate : Nat
  use_skill : Nat
deriving DecidableEq, Repr

def CooldownState.get (c : CooldownState) : ActionKind → Nat
  | ActionKind.move => c.move
  | ActionKind.attack => c.attack
  | ActionKind.gather => c.gather
  | ActionKind.communicate => c.communicate
  | ActionKind.use_skill => c.use_skill

def CooldownState.set (c : CooldownState) : ActionKind → Nat → CooldownState
  | ActionKind.move, v => { c with move := v }
  | ActionKind.attack, v => { c with attack := v }
  | ActionKind.gather, v => { c with gather := v }
  | ActionKind.communicate, v => { c with communicate := v }
  | ActionKind.use_skill, v => { c with use_skill := v }

structure Inventory where
  energy_crystal : Nat
  metal_ore : Nat
  biomass : Nat
  artifact : Nat
deriving DecidableEq, Repr

def Inventory.add (inv : Inventory) : ResourceType → Nat → Inventory
  | ResourceType.ENERGY_CRYSTAL, n => { inv with energy_crystal := inv.energy_crystal + n }
  | ResourceType.METAL_ORE, n => { inv with metal_ore := inv.metal_ore + n }
  | ResourceType.BIOMASS, n => { inv with biomass := inv.biomass + n }
  | ResourceType.ARTIFACT, n => { inv with artifact := inv.artifact + n }

structure Agent where
  id : String
  name : String
  x : Int
  y : Int
  hp : Int
  max_hp : Int
  attack : Int
  defense : Int
  level : Nat
  xp : Nat
  xp_to_next : Nat
  skill_points : Nat
  skills : SkillSet
  kills : Nat
  deaths : Nat
  alive : Bool
  respawn_at : Option Nat
  cooldowns : CooldownState
  inventory : Inventory
  created_at : Nat
  last_action_at : Nat
  session_id : Option String
  secret_hash : Option String
deriving DecidableEq, Repr

structure MapResource where
  id : String
  type : ResourceType
  x : Int
  y : Int
  amount : Nat
  spawned_at : Nat
deriving DecidableEq, Repr

inductive EventType where
  | AGENT_REGISTERED
  | AGENT_MOVED
  | AGENT_ATTACKED
  | AGENT_KILLED
  | AGENT_RESPAWNED
  | AGENT_GATHERED
  | AGENT_LEVELED_UP
  | AGENT_COMMUNICATED
  | AGENT_USED_SKILL
  | RESOURCE_SPAWNED
  | AGENT_DISCONNECTED
deriving DecidableEq, Repr

structure GameEvent where
  type : EventType
  agent_id : Option String
  target_id : Option String
  timestamp : Nat
deriving DecidableEq, Repr

/-! ## Engine-wide constants (src/src/types.ts) -/

def MAP_WIDTH : Int := 50
def MAP_HEIGHT : Int := 50
def MAX_AGENTS : Nat := 100
def RESPAWN_TIME_MS : Nat := 10000
def MAX_RESOURCES_ON_MAP : Nat := 80
def MIN_RESOURCES_ON_MAP : Nat := 20
def RESOURCE_BURST_COUNT : Nat := 8
def XP_KILL : Nat := 50
def XP_ATTACK_HIT : Nat := 5

def xpRewardGather : ResourceType → Nat
  | ResourceType.ENERGY_CRYSTAL => 15
  | ResourceType.METAL_ORE => 5
  | ResourceType.BIOMASS => 5
  | ResourceType.ARTIFACT => 40

def RESOURCE_SPAWN_WEIGHTS : List (ResourceType × ℚ) :=
  [(ResourceType.ENERGY_CRYSTAL, 40), (ResourceType.METAL_ORE, 30),
   (ResourceType.BIOMASS, 25), (ResourceType.ARTIFACT, 5)]

def DIRECTIONS : String → Option (Int × Int)
  | "north" => some (0, -1)
  | "south" => some (0, 1)
  | "east" => some (1, 0)
  | "west" => some (-1, 0)
  | "northeast" => some (1, -1)
  | "northwest" => some (-1, -1)
  | "southeast" => some (1, 1)
  | "southwest" => some (-1, 1)
  | _ => none

/-- ASCII lowercasing, modelling the source's `toLowerCase()` calls on
direction and skill names (Lean's own `String.toLower` is built on a partial
helper and cannot be evaluated by the kernel). -/
def toLowerStr (s : String) : String := ⟨s.data.map Char.toLower⟩

/-! ## Safe haven and formulas (src/src/types.ts) -/

def isInSafeHaven (x y : Int) : Bool :=
  decide (21 ≤ x ∧ x ≤ 29 ∧ 21 ≤ y ∧ y ≤ 29)

/-- XpToLevel.  The source computes `Math.floor(100 * Math.pow(1.5, level - 1))`
in double-precision floating point; this is the exact rational value
`⌊100 · (3/2)^(level-1)⌋`, with which the float computation agrees throughout
the game-reachable level range. -/
def xpForLevel (level : Nat) : Nat :=
  100 * 3 ^ (level - 1) / 2 ^ (level - 1)

/-- Damage formula; `roll` stands for the source's `Math.floor(Math.random() * 4)`,
a uniform draw from {0,1,2,3}. -/
def calculateDamage (roll : Int) (attacker defender : Agent) : Int :=
  let baseDmg : Int := 5 + attacker.attack + (attacker.skills.might : Int) * 3
  let def' : Int := defender.defense + (defender.skills.fortitude : Int) * 2
  max 1 (baseDmg - def' + roll - 2)

/-- Cooldown formula: `Math.floor(base * (1 - Math.min(agility * 0.08, 0.5)))`,
computed exactly over the rationals. -/
def getCooldown (action : ActionKind) (agent : Agent) : Nat :=
  let base : ℚ := (BASE_COOLDOWNS action : ℚ)
  let agilityReduction : ℚ := (agent.skills.agility : ℚ) * (8 / 100)
  Nat.floor (base * (1 - min agilityReduction (1 / 2)))

def getVisionRange (agent : Agent) : Nat :=
  5 + agent.skills.perception * 2

def getGatherBonus (agent : Agent) : Nat :=
  1 + agent.skills.harvesting

/-! ## Game state (the SQLite store of src/src/database.ts plus the terrain) -/

structure GameState where
  terrain : Int → Int → Terrain
  agents : List Agent
  resources : List MapResource
  events : List GameEvent

def initState (t : Int → Int → Terrain) : GameState :=
  { terrain := t, agents := [], resources := [], events := [] }

def isPassable (t : Int → Int → Terrain) (x y : Int) : Bool :=
  decide (0 ≤ x ∧ x < MAP_WIDTH ∧ 0 ≤ y ∧ y < MAP_HEIGHT ∧
    (t x y = Terrain.OPEN ∨ t x y = Terrain.WATER))

def getAgentById (agentId : String) (s : GameState) : Option Agent :=
  s.agents.find? (fun a => a.id == agentId)

def getAgentByName (name : String) (s : GameState) : Option Agent :=
  s.agents.find? (fun a => a.name == name)

def getAgentBySession (sessionId : String) (s : GameState) : Option Agent :=
  s.agents.find? (fun a => a.session_id == some sessionId)

/-- `SELECT * FROM agents WHERE x = ? AND y = ? AND alive = 1`. -/
def getAgentAt (x y : Int) (s : GameState) : Option Agent :=
  s.agents.find? (fun a => a.x == x && a.y == y && a.alive)

def getResourceAt (x y : Int) (s : GameState) : Option MapResource :=
  s.resources.find? (fun r => r.x == x && r.y == y)

/-- `UPDATE agents SET ... WHERE id = ?`. -/
def setAgent (a : Agent) (l : List Agent) : List Agent :=
  l.map (fun b => if b.id = a.id then a else b)

def mkEvent (t : EventType) (agentId targetId : Option String) (now : Nat) : GameEvent :=
  { type := t, agent_id := agentId, target_id := targetId, timestamp := now }

/-! ## Cooldown plumbing and leveling (src/src/game-engine.ts lines 104-135) -/

def checkCooldown (now : Nat) (agent : Agent) (action : ActionKind) : Option String :=
  let readyAt := agent.cooldowns.get action
  if now < readyAt then
    some (actionName action ++ " on cooldown (" ++ toString ((readyAt - now + 999) / 1000) ++ "s remaining)")
  else none

def applyCooldown (now : Nat) (agent : Agent) (action : ActionKind) : Agent :=
  { agent with cooldowns := agent.cooldowns.set action (now + getCooldown action agent),
               last_action_at := now }

/-- One iteration of the `while (agent.xp >= agent.xp_to_next)` body of `addXp`. -/
def levelOnce (a : Agent) : Agent :=
  { a with xp := a.xp - a.xp_to_next,
           level := a.level + 1,
           skill_points := a.skill_points + 1,
           max_hp := a.max_hp + 5,
           hp := a.max_hp + 5,
           xp_to_next := xpForLevel (a.level + 1) }

/-- The level-up loop of `addXp`, returning the final agent and the number of
iterations (= level-up events emitted).  The source loop does not terminate on
the impossible state `xp_to_next = 0` (engine-produced thresholds are always
`xpForLevel _ ≥ 100`); the embedding's guard requires `1 ≤ xp_to_next` so the
recursion is well-founded, and coincides with the source whenever the
threshold is positive. -/
def levelLoop (a : Agent) : Agent × Nat :=
  if h : 1 ≤ a.xp_to_next ∧ a.xp_to_next ≤ a.xp then
    let r := levelLoop (levelOnce a)
    (r.1, r.2 + 1)
  else (a, 0)
termination_by a.xp
decreasing_by
  simp only [levelOnce]
  exact Nat.sub_lt (Nat.lt_of_lt_of_le h.1 h.2) h.1

/-- `addXp`: add the grant, run the level-up loop, and report the emitted
level-up events. -/
def addXp (now : Nat) (a : Agent) (amount : Nat) : Agent × List GameEvent :=
  let r := levelLoop { a with xp := a.xp + amount }
  (r.1, List.replicate r.2 (mkEvent EventType.AGENT_LEVELED_UP (some a.id) none now))

/-! ## Spawn-point search (src/src/game-engine.ts lines 61-76).
`cands` is the stream of random positions drawn by the 500-attempt loop
(each source draw lies in [2,47]×[2,47]). -/

def spawnCandOk (s : GameState) (c : Int × Int) : Bool :=
  isPassable s.terrain c.1 c.2 && (getAgentAt c.1 c.2 s).isNone && (getResourceAt c.1 c.2 s).isNone

/-- Row-major scan order of the deterministic fallback loop:
`y` from 1 to MAP_HEIGHT-2, `x` from 1 to MAP_WIDTH-2. -/
def scanCells : List (Int × Int) :=
  (List.range 48).flatMap (fun yy =>
    (List.range 48).map (fun xx => (Int.ofNat xx + 1, Int.ofNat yy + 1)))

def findSpawnPoint (cands : List (Int × Int)) (s : GameState) : Int × Int :=
  match cands.find? (spawnCandOk s) with
  | some c => c
  | none =>
    match scanCells.find? (fun c => isPassable s.terrain c.1 c.2 && (getAgentAt c.1 c.2 s).isNone) with
    | some c => c
    | none => (MAP_WIDTH / 2, MAP_HEIGHT / 2)

/-! ## Name validation and registration (src/src/game-engine.ts lines 146-215) -/

def nameLenOk (name : String) : Bool :=
  decide (2 ≤ name.length ∧ name.length ≤ 20)

def nameCharsOk (name : String) : Bool :=
  name.toList.all (fun c => c.isAlpha || c.isDigit || c == '_' || c == '-')

def DEFAULT_SKILLS : SkillSet :=
  { might := 0, fortitude := 0, agility := 0, perception := 0, harvesting := 0 }

def DEFAULT_COOLDOWNS : CooldownState :=
  { move := 0, attack := 0, gather := 0, communicate := 0, use_skill := 0 }

def DEFAULT_INVENTORY : Inventory :=
  { energy_crystal := 0, metal_ore := 0, biomass := 0, artifact := 0 }

/-- `register(sessionId, name, secret?)`.  `hash` stands for the sha256 hex
digest `hashSecret` (an external crypto primitive), `newId` for `uuid()`,
`cands` for the spawn-attempt randomness.  The `Bool` in the success payload
is the `reconnected` flag. -/
def register (hash : String → String) (now : Nat) (newId : String)
    (cands : List (Int × Int)) (sessionId name : String) (secret : Option String)
    (s : GameState) : Except String (Agent × Bool) × GameState :=
  if nameLenOk name = false then
    (Except.error "Name must be 2-20 characters", s)
  else if nameCharsOk name = false then
    (Except.error "Name must be alphanumeric (with _ or -)", s)
  else
    match getAgentBySession sessionId s with
    | some existing => (Except.ok (existing, false), s)
    | none =>
      match getAgentByName name s with
      | some byName =>
        let proceed : Except String (Agent × Bool) × GameState :=
          if byName.session_id.isSome then
            (Except.error ("Name \"" ++ name ++ "\" is currently connected from another session"), s)
          else
            let byName' := { byName with session_id := some sessionId, last_action_at := now }
            (Except.ok (byName', true), { s with agents := setAgent byName' s.agents })
        match byName.secret_hash with
        | some storedHash =>
          match secret with
          | none => (Except.error ("Name \"" ++ name ++ "\" already exists. Provide the correct secret to reconnect."), s)
          | some sec =>
            if hash sec ≠ storedHash then (Except.error "Incorrect secret for this agent", s)
            else proceed
        | none => proceed
      | none =>
        if s.agents.length ≥ MAX_AGENTS then
          (Except.error "Arena is full (100/100 agents). Try again later.", s)
        else
          let c := findSpawnPoint cands s
          let agent : Agent :=
            { id := newId, name := name, x := c.1, y := c.2,
              hp := 50, max_hp := 50, attack := 0, defense := 0,
              level := 1, xp := 0, xp_to_next := 100, skill_points := 0,
              skills := DEFAULT_SKILLS, kills := 0, deaths := 0,
              alive := true, respawn_at := none,
              cooldowns := DEFAULT_COOLDOWNS, inventory := DEFAULT_INVENTORY,
              created_at := now, last_action_at := now,
              session_id := some sessionId,
              secret_hash := secret.map hash }
          (Except.ok (agent, false),
            { s with agents := s.agents ++ [agent],
                     events := s.events ++ [mkEvent EventType.AGENT_REGISTERED (some newId) none now] })

/-! ## move (src/src/game-engine.ts lines 271-307) -/

def move (now : Nat) (agentId direction : String) (s : GameState) :
    Except String (Int × Int × Terrain × Bool) × GameState :=
  match getAgentById agentId s with
  | none => (Except.error "Agent not found", s)
  | some agent =>
    if agent.alive = false then (Except.error "You are dead. Respawning soon...", s)
    else
      match checkCooldown now agent ActionKind.move with
      | some cdErr => (Except.error cdErr, s)
      | none =>
        match DIRECTIONS (toLowerStr direction) with
        | none => (Except.error "Invalid direction. Use: north, south, east, west, northeast, northwest, southeast, southwest", s)
        | some d =>
          let nx := agent.x + d.1
          let ny := agent.y + d.2
          if isPassable s.terrain nx ny = false then (Except.error "Cannot move there (blocked)", s)
          else
            match getAgentAt nx ny s with
            | some occupant => (Except.error ("Tile occupied by " ++ occupant.name), s)
            | none =>
              let moved0 := { agent with x := nx, y := ny }
              let moved :=
                if s.terrain nx ny = Terrain.WATER then
                  { moved0 with cooldowns :=
                      moved0.cooldowns.set ActionKind.move (now + getCooldown ActionKind.move moved0 * 2) }
                else applyCooldown now moved0 ActionKind.move
              (Except.ok (nx, ny, s.terrain nx ny, isInSafeHaven nx ny),
                { s with agents := setAgent moved s.agents,
                         events := s.events ++ [mkEvent EventType.AGENT_MOVED (some agent.id) none now] })

/-! ## attack (src/src/game-engine.ts lines 309-360) -/

def attack (now : Nat) (roll : Int) (agentId direction : String) (s : GameState) :
    Except String (String × Int × Int × Bool) × GameState :=
  match getAgentById agentId s with
  | none => (Except.error "Agent not found", s)
  | some agent =>
    if agent.alive = false then (Except.error "You are dead. Respawning soon...", s)
    else
      match checkCooldown now agent ActionKind.attack with
      | some cdErr => (Except.error cdErr, s)
      | none =>
        match DIRECTIONS (toLowerStr direction) with
        | none => (Except.error "Invalid direction. Use: north, south, east, west, northeast, northwest, southeast, southwest", s)
        | some d =>
          let tx := agent.x + d.1
          let ty := agent.y + d.2
          match getAgentAt tx ty s with
          | none => (Except.error "No agent in that direction", s)
          | some target =>
            if isInSafeHaven agent.x agent.y then
              (Except.error "You are in the Safe Haven — combat is not allowed here", s)
            else if isInSafeHaven tx ty then
              (Except.error "Target is in the Safe Haven — combat is not allowed there", s)
            else
              let damage := calculateDamage roll agent target
              let target1 := { target with hp := target.hp - damage }
              let agent1 := applyCooldown now agent ActionKind.attack
              let hit := addXp now agent1 XP_ATTACK_HIT
              if target1.hp ≤ 0 then
                let target2 := { target1 with
                  hp := 0, alive := false,
                  deaths := target1.deaths + 1,
                  respawn_at := some (now + RESPAWN_TIME_MS) }
                let agent2 := { hit.1 with kills := hit.1.kills + 1 }
                let kl := addXp now agent2 XP_KILL
                (Except.ok (target.name, damage, 0, true),
                  { s with agents := setAgent target2 (setAgent kl.1 s.agents),
                           events := s.events ++ hit.2 ++ kl.2 ++
                             [mkEvent EventType.AGENT_KILLED (some agent.id) (some target.id) now] })
              else
                (Except.ok (target.name, damage, target1.hp, false),
                  { s with agents := setAgent target1 (setAgent hit.1 s.agents),
                           events := s.events ++ hit.2 ++
                             [mkEvent EventType.AGENT_ATTACKED (some agent.id) (some target.id) now] })

/-! ## gather (src/src/game-engine.ts lines 362-391) -/

def gather (now : Nat) (agentId : String) (s : GameState) :
    Except String (ResourceType × Nat × Nat) × GameState :=
  match getAgentById agentId s with
  | none => (Except.error "Agent not found", s)
  | some agent =>
    if agent.alive = false then (Except.error "You are dead. Respawning soon...", s)
    else
      match checkCooldown now agent ActionKind.gather with
      | some cdErr => (Except.error cdErr, s)
      | none =>
        match getResourceAt agent.x agent.y s with
        | none => (Except.error "No resource here", s)
        | some resource =>
          let bonus := getGatherBonus agent
          let amount := resource.amount * bonus
          let agent1 := { agent with inventory := agent.inventory.add resource.type amount }
          let agent2 := applyCooldown now agent1 ActionKind.gather
          let xpGained := xpRewardGather resource.type * bonus
          let lv := addXp now agent2 xpGained
          (Except.ok (resource.type, amount, xpGained),
            { s with agents := setAgent lv.1 s.agents,
                     resources := s.resources.filter (fun r => r.id ≠ resource.id),
                     events := s.events ++ lv.2 ++
                       [mkEvent EventType.AGENT_GATHERED (some agent.id) none now] })

/-! ## communicate (src/src/game-engine.ts lines 393-422) -/

def communicate (now : Nat) (agentId message : String) (s : GameState) :
    Except String (List String) × GameState :=
  match getAgentById agentId s with
  | none => (Except.error "Agent not found", s)
  | some agent =>
    if agent.alive = false then (Except.error "You are dead. Respawning soon...", s)
    else
      match checkCooldown now agent ActionKind.communicate with
      | some cdErr => (Except.error cdErr, s)
      | none =>
        if message.length = 0 ∨ message.length > 200 then
          (Except.error "Message must be 1-200 characters", s)
        else
          let range := getVisionRange agent
          let nearby := s.agents.filter (fun a =>
            a.alive && a.id != agent.id &&
            (a.x - agent.x).natAbs ≤ range && (a.y - agent.y).natAbs ≤ range)
          let agent1 := applyCooldown now agent ActionKind.communicate
          (Except.ok (nearby.map (fun a => a.name)),
            { s with agents := setAgent agent1 s.agents,
                     events := s.events ++ [mkEvent EventType.AGENT_COMMUNICATED (some agent.id) none now] })

/-! ## levelUpSkill (src/src/game-engine.ts lines 447-477).
Note: the source performs no aliveness check here. -/

def parseSkill : String → Option SkillType
  | "might" => some SkillType.might
  | "fortitude" => some SkillType.fortitude
  | "agility" => some SkillType.agility
  | "perception" => some SkillType.perception
  | "harvesting" => some SkillType.harvesting
  | _ => none

def bumpSkill (sk : SkillSet) : SkillType → SkillSet
  | SkillType.might => { sk with might := sk.might + 1 }
  | SkillType.fortitude => { sk with fortitude := sk.fortitude + 1 }
  | SkillType.agility => { sk with agility := sk.agility + 1 }
  | SkillType.perception => { sk with perception := sk.perception + 1 }
  | SkillType.harvesting => { sk with harvesting := sk.harvesting + 1 }

def skillLevel (sk : SkillSet) : SkillType → Nat
  | SkillType.might => sk.might
  | SkillType.fortitude => sk.fortitude
  | SkillType.agility => sk.agility
  | SkillType.perception => sk.perception
  | SkillType.harvesting => sk.harvesting

def levelUpSkill (agentId skill : String) (s : GameState) :
    Except String (SkillType × Nat × Nat) × GameState :=
  match getAgentById agentId s with
  | none => (Except.error "Agent not found", s)
  | some agent =>
    if agent.skill_points = 0 then (Except.error "No skill points available", s)
    else
      match parseSkill (toLowerStr skill) with
      | none => (Except.error "Invalid skill. Choose: might, fortitude, agility, perception, harvesting", s)
      | some skillKey =>
        let a1 := { agent with skills := bumpSkill agent.skills skillKey,
                               skill_points := agent.skill_points - 1 }
        let a2 := if skillKey = SkillType.might then { a1 with attack := a1.attack + 2 } else a1
        let a3 :=
          if skillKey = SkillType.fortitude then
            { a2 with defense := a2.defense + 1, max_hp := a2.max_hp + 10, hp := a2.hp + 10 }
          else a2
        (Except.ok (skillKey, skillLevel a3.skills skillKey, a3.skill_points),
          { s with agents := setAgent a3 s.agents })

/-! ## useSkill (src/src/game-engine.ts lines 479-557) -/

def useSkill (now : Nat) (roll : Int) (agentId skillName : String)
    (direction : Option String) (s : GameState) : Except String String × GameState :=
  match getAgentById agentId s with
  | none => (Except.error "Agent not found", s)
  | some agent =>
    if agent.alive = false then (Except.error "You are dead", s)
    else
      match checkCooldown now agent ActionKind.use_skill with
      | some cdErr => (Except.error cdErr, s)
      | none =>
        let skill := toLowerStr skillName
        let rest : Except String String × GameState :=
          if skill = "scout" then
            if agent.skills.perception < 2 then (Except.error "Requires Perception level 2+", s)
            else
              let agent1 := applyCooldown now agent ActionKind.use_skill
              (Except.ok "scouted",
                { s with agents := setAgent agent1 s.agents })
          else
            (Except.error "Unknown skill. Available: heal (costs 1 biomass), power_strike (Might 3+, needs direction), scout (Perception 2+)", s)
        if skill = "heal" ∧ agent.inventory.biomass > 0 then
          let healAmount : Int := 10 + (agent.skills.fortitude : Int) * 5
          let agent1 := { agent with hp := min agent.max_hp (agent.hp + healAmount),
                                     inventory := { agent.inventory with biomass := agent.inventory.biomass - 1 } }
          let agent2 := applyCooldown now agent1 ActionKind.use_skill
          (Except.ok "healed",
            { s with agents := setAgent agent2 s.agents,
                     events := s.events ++ [mkEvent EventType.AGENT_USED_SKILL (some agent.id) none now] })
        else match direction with
        | none => rest
        | some dirStr =>
          if skill ≠ "power_strike" then rest
          else if agent.skills.might < 3 then (Except.error "Requires Might level 3+", s)
          else
            match DIRECTIONS (toLowerStr dirStr) with
            | none => (Except.error "Invalid direction", s)
            | some d =>
              let tx := agent.x + d.1
              let ty := agent.y + d.2
              if isInSafeHaven agent.x agent.y then
                (Except.error "You are in the Safe Haven — combat is not allowed here", s)
              else if isInSafeHaven tx ty then
                (Except.error "Target is in the Safe Haven — combat is not allowed there", s)
              else
                match getAgentAt tx ty s with
                | none => (Except.error "No target in that direction", s)
                | some target =>
                  let damage := calculateDamage roll agent target * 2
                  let target1 := { target with hp := target.hp - damage }
                  let agent1 := applyCooldown now agent ActionKind.use_skill
                  if target1.hp ≤ 0 then
                    let target2 := { target1 with
                      hp := 0, alive := false,
                      deaths := target1.deaths + 1,
                      respawn_at := some (now + RESPAWN_TIME_MS) }
                    let agent2 := { agent1 with kills := agent1.kills + 1 }
                    let kl := addXp now agent2 (XP_KILL * 2)
                    (Except.ok "power_strike kill",
                      { s with agents := setAgent target2 (setAgent kl.1 s.agents),
                               events := s.events ++ kl.2 ++
                                 [mkEvent EventType.AGENT_USED_SKILL (some agent.id) (some target.id) now] })
                  else
                    (Except.ok "power_strike hit",
                      { s with agents := setAgent target1 (setAgent agent1 s.agents),
                               events := s.events ++
                                 [mkEvent EventType.AGENT_USED_SKILL (some agent.id) (some target.id) now] })

/-! ## renameAgent.

Modelled from the spec: the engine's `renameAgent` operation is imported by
src/src/mcp-server.ts from the game engine but its implementation is not among
the provided sources.  Per the spec (§4.3 Rename), it applies the same
name-validation rule as `register`, rejects a new name that collides with
another agent's name, changes only the agent's name field, and is gated by no
cooldown. -/
def renameAgent (agentId newName : String) (s : GameState) :
    Except String (String × String) × GameState :=
  if nameLenOk newName = false then
    (Except.error "Name must be 2-20 characters", s)
  else if nameCharsOk newName = false then
    (Except.error "Name must be alphanumeric (with _ or -)", s)
  else
    match getAgentById agentId s with
    | none => (Except.error "Agent not found", s)
    | some agent =>
      match getAgentByName newName s with
      | some other =>
        if other.id ≠ agent.id then (Except.error "Name already taken", s)
        else
          let agent' := { agent with name := newName }
          (Except.ok (agent.name, newName), { s with agents := setAgent agent' s.agents })
      | none =>
        let agent' := { agent with name := newName }
        (Except.ok (agent.name, newName), { s with agents := setAgent agent' s.agents })

/-! ## Game tick (src/src/game-engine.ts lines 589-692) -/

def SAFE_HAVEN_HEAL_AMOUNT : Int := 5

/-- Body of the `tickRespawns` loop for one agent: respawn if due, then
passive safe-haven healing.  The source iterates over a snapshot of the agent
table but each iteration only reads and writes its own agent's record, so
re-reading the current record by id is equivalent. -/
def respawnStep (now : Nat) (cands : List (Int × Int)) (aid : String)
    (s : GameState) : GameState :=
  match getAgentById aid s with
  | none => s
  | some agent =>
    match agent.respawn_at with
    | some r =>
      if agent.alive = false ∧ r ≤ now then
        let c := findSpawnPoint cands s
        let a' := { agent with alive := true, hp := agent.max_hp,
                               x := c.1, y := c.2, respawn_at := none }
        { s with agents := setAgent a' s.agents,
                 events := s.events ++ [mkEvent EventType.AGENT_RESPAWNED (some agent.id) none now] }
      else s
    | none => s

def healStep (aid : String) (s : GameState) : GameState :=
  match getAgentById aid s with
  | none => s
  | some b =>
    if b.alive = true ∧ b.hp < b.max_hp ∧ isInSafeHaven b.x b.y then
      { s with agents := setAgent { b with hp := min b.max_hp (b.hp + SAFE_HAVEN_HEAL_AMOUNT) } s.agents }
    else s

def respawnHealStep (now : Nat) (cands : List (Int × Int)) (aid : String)
    (s : GameState) : GameState :=
  healStep aid (respawnStep now cands aid s)

def tickRespawns (now : Nat) (cands : Nat → List (Int × Int)) (s : GameState) : GameState :=
  ((s.agents.map Agent.id).enum).foldl
    (fun st p => respawnHealStep now (cands p.1) p.2 st) s

/-- Weighted resource-kind selection (cumulative subtraction over the weight
table); `r` is the source's `Math.random() * totalWeight` draw. -/
def pickResourceType (r : ℚ) : ResourceType :=
  go r RESOURCE_SPAWN_WEIGHTS
where
  go (r : ℚ) : List (ResourceType × ℚ) → ResourceType
    | [] => ResourceType.ENERGY_CRYSTAL
    | (t, w) :: rest => if r - w ≤ 0 then t else go (r - w) rest

/-- The randomness consumed by one `spawnOneResource` call: the weighted-type
draw, the stream of up-to-50 random positions (each source draw lies in
[1,48]×[1,48]), the stack-amount roll `Math.floor(Math.random()*3)` ∈ {0,1,2},
and the new row's uuid. -/
structure SpawnInput where
  r : ℚ
  cands : List (Int × Int)
  amtRoll : Nat
  rid : String

def spawnOneResource (now : Nat) (inp : SpawnInput) (s : GameState) : GameState × Bool :=
  let selectedType := pickResourceType inp.r
  match inp.cands.find? (fun c =>
      isPassable s.terrain c.1 c.2 && (getResourceAt c.1 c.2 s).isNone && (getAgentAt c.1 c.2 s).isNone) with
  | none => (s, false)
  | some c =>
    let res : MapResource :=
      { id := inp.rid, type := selectedType, x := c.1, y := c.2,
        amount := if selectedType = ResourceType.ARTIFACT then 1 else 1 + inp.amtRoll,
        spawned_at := now }
    ({ s with resources := s.resources ++ [res],
              events := s.events ++ [mkEvent EventType.RESOURCE_SPAWNED none none now] }, true)

/-- The `for (let i = 0; i < toSpawn; i++)` loop of `tickResources`, also
counting how many spawn attempts (`spawnOneResource` calls) were made. -/
def spawnLoop (now : Nat) (inputs : Nat → SpawnInput) :
    Nat → Nat → GameState → GameState × Nat
  | 0, att, st => (st, att)
  | n + 1, att, st =>
    if st.resources.length ≥ MAX_RESOURCES_ON_MAP then (st, att)
    else spawnLoop now inputs n (att + 1) (spawnOneResource now (inputs att) st).1

/-- `tickResources`, returning the new state and the number of spawn attempts. -/
def tickResourcesCounted (now : Nat) (inputs : Nat → SpawnInput) (s : GameState) :
    GameState × Nat :=
  let count := s.resources.length
  if count ≥ MAX_RESOURCES_ON_MAP then (s, 0)
  else
    let toSpawn := if count < MIN_RESOURCES_ON_MAP then RESOURCE_BURST_COUNT else 1
    spawnLoop now inputs toSpawn 0 s

def tickResources (now : Nat) (inputs : Nat → SpawnInput) (s : GameState) : GameState :=
  (tickResourcesCounted now inputs s).1

def INACTIVITY_TIMEOUT_MS : Nat := 5 * 60 * 1000

def evictCond (now : Nat) (a : Agent) : Bool :=
  a.session_id.isSome && decide (INACTIVITY_TIMEOUT_MS < now - a.last_action_at)

/-- `tickInactivity`.  The source loop conditionally updates each agent in
place and appends one disconnect event per evicted agent, in table order;
the iterations are independent, so it is a map plus a filtered event batch. -/
def tickInactivity (now : Nat) (s : GameState) : GameState :=
  { s with
      agents := s.agents.map (fun a => if evictCond now a then { a with session_id := none } else a),
      events := s.events ++
        (s.agents.filter (evictCond now)).map
          (fun a => mkEvent EventType.AGENT_DISCONNECTED (some a.id) none now) }

/-- One full game-loop tick: respawns + passive healing, resource top-up,
inactivity eviction (the spectator broadcast does not change state). -/
def tick (now : Nat) (rcands : Nat → List (Int × Int)) (sinputs : Nat → SpawnInput)
    (s : GameState) : GameState :=
  tickInactivity now (tickResources now sinputs (tickRespawns now rcands s))

/-! ## Engine operations as a transition system.

`Op` packages one engine call (the operations named by the occupancy claim)
together with all environment inputs it consumes: clock readings, fresh uuids,
random draws.  `Reachable` is the set of states produced by any sequence of
such calls from the initial (freshly initialized, empty-store) state. -/

inductive Op where
  | register (hash : String → String) (now : Nat) (newId : String)
      (cands : List (Int × Int)) (sessionId name : String) (secret : Option String)
  | move (now : Nat) (agentId direction : String)
  | attack (now : Nat) (roll : Int) (agentId direction : String)
  | gather (now : Nat) (agentId : String)
  | useSkill (now : Nat) (roll : Int) (agentId skillName : String) (direction : Option String)
  | tick (now : Nat) (rcands : Nat → List (Int × Int)) (sinputs : Nat → SpawnInput)

def applyOp : Op → GameState → GameState
  | Op.register hash now newId cands sessionId name secret, s =>
    (register hash now newId cands sessionId name secret s).2
  | Op.move now agentId direction, s => (move now agentId direction s).2
  | Op.attack now roll agentId direction, s => (attack now roll agentId direction s).2
  | Op.gather now agentId, s => (gather now agentId s).2
  | Op.useSkill now roll agentId skillName direction, s =>
    (useSkill now roll agentId skillName direction s).2
  | Op.tick now rcands sinputs, s => tick now rcands sinputs s

def Step (s s' : GameState) : Prop := ∃ op, s' = applyOp op s

def Reachable : GameState → GameState → Prop := Relation.ReflTransGen Step

def applyOps (ops : List Op) (s : GameState) : GameState :=
  ops.foldl (fun st op => applyOp op st) s


/-! # Claim proofs -/

/-! ## Numeric lemmas about the formulas -/

lemma xpForLevel_ge_100 (l : Nat) : 100 ≤ xpForLevel l := by
  unfold xpForLevel
  rw [Nat.le_div_iff_mul_le (pow_pos (by norm_num) _)]
  exact Nat.mul_le_mul_left _ (Nat.pow_le_pow_left (by norm_num) _)

lemma xpForLevel_pos (l : Nat) : 1 ≤ xpForLevel l :=
  le_trans (by norm_num) (xpForLevel_ge_100 l)

/-- The threshold function is the exact rational floor `⌊100·(3/2)^(level-1)⌋`. -/
lemma xpForLevel_eq_floor (l : Nat) :
    xpForLevel l = Nat.floor ((100 : ℚ) * (3 / 2) ^ (l - 1)) := by
  have h : (100 : ℚ) * (3 / 2) ^ (l - 1) =
      ((100 * 3 ^ (l - 1) : ℕ) : ℚ) / ((2 ^ (l - 1) : ℕ) : ℚ) := by
    push_cast
    rw [div_pow]
    ring
  rw [h, Nat.floor_div_nat]
  rfl

/-- C8: for every action and every agent (any agility value, including zero and
values far beyond the intended range), the computed cooldown is at least half
the base cooldown. -/
theorem cooldown_at_least_half_base (action : ActionKind) (agent : Agent) :
    (BASE_COOLDOWNS action : ℚ) * (1 / 2) ≤ (getCooldown action agent : ℚ) := by
  have hmin : min ((agent.skills.agility : ℚ) * (8 / 100)) (1 / 2) ≤ 1 / 2 :=
    min_le_right _ _
  have hbase : (0 : ℚ) ≤ (BASE_COOLDOWNS action : ℚ) := Nat.cast_nonneg _
  have hq : (BASE_COOLDOWNS action : ℚ) * (1 / 2) ≤
      (BASE_COOLDOWNS action : ℚ) *
        (1 - min ((agent.skills.agility : ℚ) * (8 / 100)) (1 / 2)) :=
    mul_le_mul_of_nonneg_left (by linarith) hbase
  have hcast : (BASE_COOLDOWNS action : ℚ) * (1 / 2) =
      ((BASE_COOLDOWNS action / 2 : Nat) : ℚ) := by
    cases action <;> norm_num [BASE_COOLDOWNS]
  have hfloor : (BASE_COOLDOWNS action / 2 : Nat) ≤ getCooldown action agent := by
    apply Nat.le_floor
    rw [← hcast]
    exact hq
  rw [hcast]
  exact_mod_cast hfloor

/-- `getCooldown` rewritten over the integers (exact: both sides are the floor
of the same rational), usable for kernel evaluation. -/
lemma getCooldown_eq (action : ActionKind) (agent : Agent) :
    getCooldown action agent =
      BASE_COOLDOWNS action * (100 - min (agent.skills.agility * 8) 50) / 100 := by
  have hgc : getCooldown action agent =
      Nat.floor ((BASE_COOLDOWNS action : ℚ) *
        (1 - min ((agent.skills.agility : ℚ) * (8 / 100)) (1 / 2))) := rfl
  have hle : min (agent.skills.agility * 8) 50 ≤ 100 :=
    le_trans (min_le_right _ _) (by norm_num)
  have hmin : min ((agent.skills.agility : ℚ) * (8 / 100)) (1 / 2) =
      ((min (agent.skills.agility * 8) 50 : ℕ) : ℚ) / 100 := by
    rcases le_total (agent.skills.agility * 8) 50 with h | h
    · rw [min_eq_left h, min_eq_left]
      · push_cast; ring
      · have h2 : ((agent.skills.agility * 8 : ℕ) : ℚ) ≤ ((50 : ℕ) : ℚ) :=
          Nat.cast_le.mpr h
        push_cast at h2 ⊢
        linarith
    · rw [min_eq_right h, min_eq_right]
      · norm_num
      · have h2 : ((50 : ℕ) : ℚ) ≤ ((agent.skills.agility * 8 : ℕ) : ℚ) :=
          Nat.cast_le.mpr h
        push_cast at h2 ⊢
        linarith
  have h2 : (BASE_COOLDOWNS action : ℚ) *
        (1 - ((min (agent.skills.agility * 8) 50 : ℕ) : ℚ) / 100) =
      ((BASE_COOLDOWNS action * (100 - min (agent.skills.agility * 8) 50) : ℕ) : ℚ) /
        ((100 : ℕ) : ℚ) := by
    push_cast [Nat.cast_sub hle]
    ring
  rw [hgc, hmin, h2, Nat.floor_div_nat, Nat.floor_natCast]

/-! ## The leveling loop (claim C2) -/

/-- A concrete level-1 agent with 0 xp and threshold 100 (the spec's example). -/
def c2Agent : Agent :=
  { id := "rex", name := "Rex", x := 5, y := 5, hp := 50, max_hp := 50,
    attack := 0, defense := 0, level := 1, xp := 0, xp_to_next := 100,
    skill_points := 0, skills := DEFAULT_SKILLS, kills := 0, deaths := 0,
    alive := true, respawn_at := none, cooldowns := DEFAULT_COOLDOWNS,
    inventory := DEFAULT_INVENTORY, created_at := 0, last_action_at := 0,
    session_id := none, secret_hash := none }

/-- C2: the leveling routine loops while `xp ≥ xp_to_next`; each iteration
performs exactly the `levelOnce` body (subtract threshold, level+1, one skill
point, max_hp+5, full heal, recompute `xp_to_next = ⌊100·1.5^(level-1)⌋`) and
emits one level-up event, so a single large grant crosses several thresholds;
in particular the example agent (level 1, xp 0, threshold 100) granted 400 xp
ends at level 3 with xp 150, threshold 225, 2 extra skill points and 2
level-up events. -/
theorem addXp_level_loop_spec (now : Nat) (a : Agent) (amount : Nat)
    (hpos : 1 ≤ a.xp_to_next) :
    (∀ l, xpForLevel l = Nat.floor ((100 : ℚ) * (3 / 2) ^ (l - 1))) ∧
    (a.xp_to_next ≤ a.xp →
      levelLoop a = ((levelLoop (levelOnce a)).1, (levelLoop (levelOnce a)).2 + 1)) ∧
    (a.xp < a.xp_to_next → levelLoop a = (a, 0)) ∧
    (addXp now a amount).1 = (levelLoop { a with xp := a.xp + amount }).1 ∧
    (addXp now a amount).2 =
      List.replicate (levelLoop { a with xp := a.xp + amount }).2
        (mkEvent EventType.AGENT_LEVELED_UP (some a.id) none now) ∧
    ((addXp 0 c2Agent 400).1.level = 3 ∧
      (addXp 0 c2Agent 400).1.xp = 150 ∧
      (addXp 0 c2Agent 400).1.xp_to_next = 225 ∧
      (addXp 0 c2Agent 400).1.skill_points = 2 ∧
      (addXp 0 c2Agent 400).1.max_hp = 60 ∧
      (addXp 0 c2Agent 400).1.hp = 60 ∧
      (addXp 0 c2Agent 400).2.length = 2) := by
  refine ⟨xpForLevel_eq_floor, ?_, ?_, rfl, rfl, ?_⟩
  · intro hle
    rw [levelLoop]
    simp [hpos, hle]
  · intro hlt
    rw [levelLoop]
    have h : ¬ (1 ≤ a.xp_to_next ∧ a.xp_to_next ≤ a.xp) := by omega
    simp [h]
  · norm_num [addXp, c2Agent]
    rw [levelLoop]
    norm_num [levelOnce, xpForLevel]
    rw [levelLoop]
    norm_num [levelOnce, xpForLevel]
    rw [levelLoop]
    norm_num [levelOnce, xpForLevel]

/-- Witness for C2: the hypothesis `1 ≤ xp_to_next` discharged on the concrete
example agent, together with the example's outcome. -/
theorem addXp_level_loop_spec_witness :
    (addXp 0 c2Agent 400).1.level = 3 ∧ (addXp 0 c2Agent 400).1.xp = 150 ∧
    (addXp 0 c2Agent 400).2.length = 2 := by
  have h := addXp_level_loop_spec 0 c2Agent 400 (by norm_num [c2Agent])
  obtain ⟨-, -, -, -, -, hex⟩ := h
  exact ⟨hex.1, hex.2.1, hex.2.2.2.2.2.2⟩

/-! ## Locating an updated agent (UPDATE ... WHERE id) -/

lemma find?_setAgent {l : List Agent} {i : String} {a a' : Agent}
    (h : l.find? (fun b => b.id == i) = some a) (hid : a'.id = a.id) :
    (setAgent a' l).find? (fun b => b.id == i) = some a' := by
  have hai : a.id = i := by
    have := List.find?_some h
    simpa using this
  induction l with
  | nil => simp at h
  | cons hd tl ih =>
    by_cases hc : hd.id = i
    · have hhd : a = hd := by
        rw [List.find?_cons_of_pos] at h
        · exact (Option.some_inj.mp h).symm
        · simpa using hc
      rw [setAgent, List.map_cons, if_pos (by rw [hid, hhd])]
      exact List.find?_cons_of_pos _ (by simpa using hid.trans hai)
    · rw [List.find?_cons_of_neg] at h
      · have hne : hd.id ≠ a'.id := by rw [hid, hai]; exact hc
        rw [setAgent, List.map_cons, if_neg hne]
        rw [List.find?_cons_of_neg _ (by simpa using hc)]
        exact ih h
      · simpa using hc

/-! ## Successful moves (claims C5 and C10) -/

/-- Characterization of a successful `move`: the position updates, and the
move-cooldown charge depends on the destination terrain — doubled on water
(written directly into the cooldown table, without touching
`last_action_at`), single via `applyCooldown` (which also stamps
`last_action_at`) otherwise. -/
lemma move_success_spec (now : Nat) (agentId direction : String) (s : GameState)
    (a : Agent) (d : Int × Int)
    (ha : getAgentById agentId s = some a)
    (halive : a.alive = true)
    (hcd : checkCooldown now a ActionKind.move = none)
    (hdir : DIRECTIONS (toLowerStr direction) = some d)
    (hpass : isPassable s.terrain (a.x + d.1) (a.y + d.2) = true)
    (hocc : getAgentAt (a.x + d.1) (a.y + d.2) s = none) :
    ∃ a',
      move now agentId direction s =
        (Except.ok (a.x + d.1, a.y + d.2, s.terrain (a.x + d.1) (a.y + d.2),
            isInSafeHaven (a.x + d.1) (a.y + d.2)),
         { s with agents := setAgent a' s.agents,
                  events := s.events ++ [mkEvent EventType.AGENT_MOVED (some a.id) none now] }) ∧
      a'.id = a.id ∧ a'.x = a.x + d.1 ∧ a'.y = a.y + d.2 ∧ a'.alive = a.alive ∧
      (s.terrain (a.x + d.1) (a.y + d.2) = Terrain.WATER →
        a'.cooldowns.move = now + getCooldown ActionKind.move a * 2 ∧
        a'.last_action_at = a.last_action_at) ∧
      (s.terrain (a.x + d.1) (a.y + d.2) ≠ Terrain.WATER →
        a'.cooldowns.move = now + getCooldown ActionKind.move a ∧
        a'.last_action_at = now) := by
  obtain ⟨dx, dy⟩ := d
  unfold move
  rw [ha]
  simp only [halive, hcd, hdir, hpass]
  rw [hocc]
  by_cases hw : s.terrain (a.x + dx) (a.y + dy) = Terrain.WATER
  · rw [if_pos hw]
    exact ⟨_, rfl, rfl, rfl, rfl, rfl, fun _ => ⟨rfl, rfl⟩, fun hc => absurd hw hc⟩
  · rw [if_neg hw]
    exact ⟨_, rfl, rfl, rfl, rfl, rfl, fun hc => absurd hc hw, fun _ => ⟨rfl, rfl⟩⟩

/-- C5: a successful move charges the move cooldown-ready timestamp
immediately: `now + 2·cooldown` when the destination terrain is water, and
`now + cooldown` otherwise. -/
theorem water_move_double_cooldown (now : Nat) (agentId direction : String)
    (s : GameState) (a : Agent) (d : Int × Int)
    (ha : getAgentById agentId s = some a)
    (halive : a.alive = true)
    (hcd : checkCooldown now a ActionKind.move = none)
    (hdir : DIRECTIONS (toLowerStr direction) = some d)
    (hpass : isPassable s.terrain (a.x + d.1) (a.y + d.2) = true)
    (hocc : getAgentAt (a.x + d.1) (a.y + d.2) s = none) :
    ∃ a', getAgentById agentId (move now agentId direction s).2 = some a' ∧
      (move now agentId direction s).1 =
        Except.ok (a.x + d.1, a.y + d.2, s.terrain (a.x + d.1) (a.y + d.2),
          isInSafeHaven (a.x + d.1) (a.y + d.2)) ∧
      a'.cooldowns.move =
        (if s.terrain (a.x + d.1) (a.y + d.2) = Terrain.WATER then
          now + getCooldown ActionKind.move a * 2
        else
          now + getCooldown ActionKind.move a) := by
  obtain ⟨a', heq, hid, hx, hy, hal, hwater, hland⟩ :=
    move_success_spec now agentId direction s a d ha halive hcd hdir hpass hocc
  refine ⟨a', ?_, ?_, ?_⟩
  · rw [heq]
    exact find?_setAgent ha hid
  · rw [heq]
  · by_cases hw : s.terrain (a.x + d.1) (a.y + d.2) = Terrain.WATER
    · rw [if_pos hw]; exact (hwater hw).1
    · rw [if_neg hw]; exact (hland hw).1

/-- Witness for C5 (and shared scenario for C10): a concrete world with one
agent standing next to a water tile. -/
def c5Terrain : Int → Int → Terrain := fun x y =>
  if x = 6 ∧ y = 5 then Terrain.WATER
  else if 1 ≤ x ∧ x ≤ 48 ∧ 1 ≤ y ∧ y ≤ 48 then Terrain.OPEN
  else Terrain.WALL

def c5Agent : Agent :=
  { c2Agent with id := "mover", name := "Mover", x := 5, y := 5,
                 session_id := some "sess5", last_action_at := 1000 }

def c5State : GameState :=
  { terrain := c5Terrain, agents := [c5Agent], resources := [], events := [] }

theorem water_move_double_cooldown_witness :
    ∃ a', getAgentById "mover" (move 2000 "mover" "east" c5State).2 = some a' ∧
      (move 2000 "mover" "east" c5State).1 =
        Except.ok (6, 5, Terrain.WATER, false) ∧
      a'.cooldowns.move = 2000 + 1000 * 2 := by
  have h := water_move_double_cooldown 2000 "mover" "east" c5State c5Agent (1, 0)
    (by decide) (by decide) (by decide) (by decide) (by decide) (by decide)
  obtain ⟨a', h1, h2, h3⟩ := h
  refine ⟨a', h1, ?_, ?_⟩
  · rw [h2]
    rfl
  · have hw : c5State.terrain (c5Agent.x + ((1 : Int), (0 : Int)).1)
        (c5Agent.y + ((1 : Int), (0 : Int)).2) = Terrain.WATER := rfl
    rw [h3, if_pos hw, getCooldown_eq]
    decide

/-- C10: the water branch of a successful move writes the cooldown table
directly and leaves `last_action_at` untouched (unlike `applyCooldown`), and
the inactivity sweep evicts any agent with a bound session whose
`last_action_at` is more than the 5-minute threshold in the past: the session
is cleared and a disconnect event is appended. -/
theorem water_move_inactivity_eviction (now : Nat) (agentId direction : String)
    (s : GameState) (a : Agent) (d : Int × Int)
    (ha : getAgentById agentId s = some a)
    (halive : a.alive = true)
    (hcd : checkCooldown now a ActionKind.move = none)
    (hdir : DIRECTIONS (toLowerStr direction) = some d)
    (hpass : isPassable s.terrain (a.x + d.1) (a.y + d.2) = true)
    (hocc : getAgentAt (a.x + d.1) (a.y + d.2) s = none)
    (hw : s.terrain (a.x + d.1) (a.y + d.2) = Terrain.WATER) :
    (∃ a', getAgentById agentId (move now agentId direction s).2 = some a' ∧
      a'.last_action_at = a.last_action_at) ∧
    (∀ (now2 : Nat) (s2 : GameState) (b : Agent), b ∈ s2.agents →
      b.session_id.isSome = true →
      INACTIVITY_TIMEOUT_MS < now2 - b.last_action_at →
      { b with session_id := none } ∈ (tickInactivity now2 s2).agents ∧
      mkEvent EventType.AGENT_DISCONNECTED (some b.id) none now2 ∈ (tickInactivity now2 s2).events) := by
  constructor
  · obtain ⟨a', heq, hid, hx, hy, hal, hwater, hland⟩ :=
      move_success_spec now agentId direction s a d ha halive hcd hdir hpass hocc
    refine ⟨a', ?_, (hwater hw).2⟩
    rw [heq]
    exact find?_setAgent ha hid
  · intro now2 s2 b hb hsess hidle
    have hcond : evictCond now2 b = true := by
      simp [evictCond, hsess, hidle]
    constructor
    · show { b with session_id := none } ∈
        s2.agents.map (fun a => if evictCond now2 a then { a with session_id := none } else a)
      exact List.mem_map.mpr ⟨b, hb, by rw [if_pos hcond]⟩
    · show _ ∈ s2.events ++ (s2.agents.filter (evictCond now2)).map
        (fun a => mkEvent EventType.AGENT_DISCONNECTED (some a.id) none now2)
      apply List.mem_append_right
      exact List.mem_map_of_mem _ (List.mem_filter.mpr ⟨hb, hcond⟩)

theorem water_move_inactivity_eviction_witness :
    (∃ a', getAgentById "mover" (move 2000 "mover" "east" c5State).2 = some a' ∧
      a'.last_action_at = 1000) ∧
    { c5Agent with session_id := none } ∈ (tickInactivity 500000 c5State).agents := by
  have h := water_move_inactivity_eviction 2000 "mover" "east" c5State c5Agent (1, 0)
    (by decide) (by decide) (by decide) (by decide) (by decide) (by decide) (by decide)
  refine ⟨?_, ?_⟩
  · obtain ⟨a', h1, h2⟩ := h.1
    exact ⟨a', h1, h2⟩
  · exact (h.2 500000 c5State c5Agent (by decide) (by decide) (by decide)).1

/-! ## Dead-agent gating (claim C3) -/

/-- An error result leaves the paired state unchanged and is not a success. -/
lemma errPair {α : Type} (e : String) (s : GameState) :
    ((Except.error e, s) : Except String α × GameState).2 = s ∧
    ∀ r, ((Except.error e, s) : Except String α × GameState).1 ≠ Except.ok r :=
  ⟨rfl, fun _ h => Except.noConfusion h⟩

/-- C3 (amended): move, attack, gather, communicate and useSkill all reject a
dead agent with a structured error and leave the entire state (agents,
resources, event log) unchanged.  (`levelUpSkill` performs no aliveness check
— see the counterexample.) -/
theorem dead_agent_actions_rejected (now : Nat) (roll : Int)
    (agentId direction message skillName : String) (odir : Option String)
    (s : GameState) (a : Agent)
    (ha : getAgentById agentId s = some a) (hdead : a.alive = false) :
    move now agentId direction s = (Except.error "You are dead. Respawning soon...", s) ∧
    attack now roll agentId direction s = (Except.error "You are dead. Respawning soon...", s) ∧
    gather now agentId s = (Except.error "You are dead. Respawning soon...", s) ∧
    communicate now agentId message s = (Except.error "You are dead. Respawning soon...", s) ∧
    useSkill now roll agentId skillName odir s = (Except.error "You are dead", s) := by
  refine ⟨?_, ?_, ?_, ?_, ?_⟩
  · simp only [move, ha]
    rw [if_pos hdead]
  · simp only [attack, ha]
    rw [if_pos hdead]
  · simp only [gather, ha]
    rw [if_pos hdead]
  · simp only [communicate, ha]
    rw [if_pos hdead]
  · simp only [useSkill, ha]
    rw [if_pos hdead]

/-- The dead agent used by the C3 counterexample: one unspent skill point. -/
def c3Agent : Agent :=
  { c2Agent with id := "deadguy", name := "DeadGuy", alive := false, hp := 0,
                 skill_points := 1, respawn_at := some 99999 }

def c3State : GameState :=
  { terrain := fun _ _ => Terrain.WALL, agents := [c3Agent], resources := [], events := [] }

/-- C3 counterexample: `levelUpSkill` on an existing agent whose alive flag is
false does not return an error — it succeeds and mutates the agent record. -/
theorem levelUpSkill_dead_agent_succeeds :
    c3Agent.alive = false ∧
    (levelUpSkill "deadguy" "might" c3State).1 = Except.ok (SkillType.might, 1, 0) ∧
    (getAgentById "deadguy" (levelUpSkill "deadguy" "might" c3State).2).map
      (fun b => b.skills.might) = some 1 := by
  exact ⟨rfl, rfl, rfl⟩

/-- Witness for C3: the five gated actions all reject the dead agent of the
counterexample state, leaving it unchanged. -/
theorem dead_agent_actions_rejected_witness :
    move 0 "deadguy" "north" c3State = (Except.error "You are dead. Respawning soon...", c3State) ∧
    attack 0 0 "deadguy" "north" c3State = (Except.error "You are dead. Respawning soon...", c3State) ∧
    useSkill 0 0 "deadguy" "heal" none c3State = (Except.error "You are dead", c3State) := by
  have h := dead_agent_actions_rejected 0 0 "deadguy" "north" "hi" "heal" none c3State c3Agent
    rfl rfl
  exact ⟨h.1, h.2.1, h.2.2.2.2⟩

/-! ## Safe-haven combat exclusion (claim C4) -/

/-- C4: an attack (or power_strike) whose attacker cell or adjacent target cell
lies inside the safe-haven rectangle is rejected with a structured error, and
the state — both combatants' hp, positions, cooldowns, kills, deaths, the
resources and the event log — is unchanged. -/
theorem safe_haven_combat_rejected (now : Nat) (roll : Int)
    (agentId direction : String) (s : GameState) (a : Agent) (d : Int × Int)
    (ha : getAgentById agentId s = some a)
    (hdir : DIRECTIONS (toLowerStr direction) = some d)
    (hhaven : isInSafeHaven a.x a.y = true ∨ isInSafeHaven (a.x + d.1) (a.y + d.2) = true) :
    ((attack now roll agentId direction s).2 = s ∧
      ∀ r, (attack now roll agentId direction s).1 ≠ Except.ok r) ∧
    ((useSkill now roll agentId "power_strike" (some direction) s).2 = s ∧
      ∀ r, (useSkill now roll agentId "power_strike" (some direction) s).1 ≠ Except.ok r) := by
  obtain ⟨dx, dy⟩ := d
  constructor
  · simp only [attack, ha]
    repeat' split
    all_goals
      first
        | exact errPair _ _
        | (exfalso; rcases hhaven with hh | hh <;> simp_all)
  · have hps : toLowerStr "power_strike" = "power_strike" := rfl
    simp only [useSkill, ha, hps]
    repeat' split
    all_goals
      first
        | exact errPair _ _
        | (exfalso; rcases hhaven with hh | hh <;> simp_all)

/-- Two agents adjacent inside the safe haven, for the C4 witness. -/
def c4AgentA : Agent := { c2Agent with id := "atkA", name := "AtkA", x := 21, y := 21 }

def c4AgentB : Agent := { c2Agent with id := "defB", name := "DefB", x := 22, y := 21 }

def c4State : GameState :=
  { terrain := fun _ _ => Terrain.OPEN, agents := [c4AgentA, c4AgentB],
    resources := [], events := [] }

theorem safe_haven_combat_rejected_witness :
    (attack 0 0 "atkA" "east" c4State).2 = c4State ∧
    (useSkill 0 0 "atkA" "power_strike" (some "east") c4State).2 = c4State := by
  have h := safe_haven_combat_rejected 0 0 "atkA" "east" c4State c4AgentA (1, 0)
    rfl (by decide) (Or.inl (by decide))
  exact ⟨h.1.1, h.2.1⟩

/-! ## Registration against an existing name (claim C6) -/

/-- C6 (amended): for a register call by a session that does not already own
an agent, with a valid name owned by an existing agent `b`:
if `b` has a live session the call is rejected; if `b` has neither a live
session nor a stored credential the call succeeds as a reconnect, binding the
caller's session; if `b` has a stored credential, the call can only succeed
when the supplied secret hashes to the stored hash.  (If the calling session
already owns an agent, register returns that agent idempotently before any
name-based check — see the counterexample.) -/
theorem register_existing_name_spec (hash : String → String) (now : Nat)
    (newId : String) (cands : List (Int × Int)) (sessionId name : String)
    (secret : Option String) (s : GameState) (b : Agent)
    (hlen : nameLenOk name = true) (hchars : nameCharsOk name = true)
    (hsess : getAgentBySession sessionId s = none)
    (hbn : getAgentByName name s = some b) :
    (b.session_id.isSome = true →
      ∀ r, (register hash now newId cands sessionId name secret s).1 ≠ Except.ok r) ∧
    (b.session_id = none → b.secret_hash = none →
      register hash now newId cands sessionId name secret s =
        (Except.ok ({ b with session_id := some sessionId, last_action_at := now }, true),
         { s with agents := setAgent { b with session_id := some sessionId, last_action_at := now } s.agents })) ∧
    (∀ h', b.secret_hash = some h' →
      ∀ r, (register hash now newId cands sessionId name secret s).1 = Except.ok r →
        ∃ sec, secret = some sec ∧ hash sec = h') := by
  have hlen' : ¬ (nameLenOk name = false) := by rw [hlen]; simp
  have hchars' : ¬ (nameCharsOk name = false) := by rw [hchars]; simp
  refine ⟨?_, ?_, ?_⟩
  · intro hlive r
    simp only [register, if_neg hlen', if_neg hchars', hsess, hbn]
    repeat' split
    all_goals
      first
        | exact fun h => Except.noConfusion h
        | (exfalso; simp_all)
  · intro hnosess hnosec
    simp only [register, if_neg hlen', if_neg hchars', hsess, hbn, hnosec]
    rw [if_neg (by rw [hnosess]; simp)]
  · intro h' hsh r hok
    cases secret with
    | none =>
      simp only [register, if_neg hlen', if_neg hchars', hsess, hbn, hsh] at hok
      simp at hok
    | some sec =>
      simp only [register, if_neg hlen', if_neg hchars', hsess, hbn, hsh] at hok
      split at hok
      · simp at hok
      · rename_i hne
        exact ⟨sec, rfl, not_not.mp hne⟩

/-- State for the C6 counterexample: the calling session "s1" already owns
agent Alice; the requested name "Bob" belongs to an agent with the live
session "s2". -/
def c6AgentA : Agent := { c2Agent with id := "idA", name := "Alice", session_id := some "s1" }

def c6AgentB : Agent :=
  { c2Agent with id := "idB", name := "Bob", x := 7, session_id := some "s2" }

def c6State : GameState :=
  { terrain := fun _ _ => Terrain.WALL, agents := [c6AgentA, c6AgentB],
    resources := [], events := [] }

/-- C6 counterexample: registering the name "Bob" — whose owner has a live
session bound — is *not* rejected when the calling session already owns an
agent: register returns that agent successfully, before any name-based check. -/
theorem register_session_owner_bypasses_name_rules :
    (getAgentByName "Bob" c6State).map Agent.session_id = some (some "s2") ∧
    (register (fun x => x) 0 "n" [] "s1" "Bob" none c6State).1 =
      Except.ok (c6AgentA, false) := ⟨rfl, rfl⟩

/-- State for the C6 witness: "Bob" exists with no live session and no
credential; session "s9" owns nothing. -/
def c6FreeBob : Agent := { c2Agent with id := "idB", name := "Bob" }

def c6State2 : GameState :=
  { terrain := fun _ _ => Terrain.WALL, agents := [c6FreeBob], resources := [], events := [] }

theorem register_existing_name_spec_witness :
    (register (fun x => x) 5 "n" [] "s9" "Bob" none c6State2).1 =
      Except.ok ({ c6FreeBob with session_id := some "s9", last_action_at := 5 }, true) := by
  have h := register_existing_name_spec (fun x => x) 5 "n" [] "s9" "Bob" none
    c6State2 c6FreeBob (by decide) (by decide) rfl rfl
  rw [(h.2.1 rfl rfl : _ = _)]

/-! ## Rename (claim C9) -/

/-- C9: the spec-modelled `renameAgent` uses the same name-validation rule as
`register` (the shared `nameLenOk`/`nameCharsOk` checks, with the same error
messages), rejects a new name that belongs to a different agent, and on
success changes exactly the agent's name — the updated record is
`{ a with name := newName }`, so hp, position, cooldowns and all other fields
are untouched — and consults no clock or cooldown state at all. -/
theorem renameAgent_spec (agentId newName : String) (s : GameState) (a : Agent)
    (ha : getAgentById agentId s = some a) :
    ((nameLenOk newName = false ∨ nameCharsOk newName = false) →
      (∀ r, (renameAgent agentId newName s).1 ≠ Except.ok r) ∧
      (renameAgent agentId newName s).2 = s) ∧
    (∀ other, nameLenOk newName = true → nameCharsOk newName = true →
      getAgentByName newName s = some other → other.id ≠ a.id →
      renameAgent agentId newName s = (Except.error "Name already taken", s)) ∧
    (nameLenOk newName = true → nameCharsOk newName = true →
      getAgentByName newName s = none →
      renameAgent agentId newName s =
        (Except.ok (a.name, newName),
         { s with agents := setAgent { a with name := newName } s.agents })) := by
  refine ⟨?_, ?_, ?_⟩
  · intro hbad
    unfold renameAgent
    rcases hbad with hb | hb
    · rw [if_pos hb]
      exact ⟨fun _ h => Except.noConfusion h, rfl⟩
    · by_cases hl : nameLenOk newName = false
      · rw [if_pos hl]
        exact ⟨fun _ h => Except.noConfusion h, rfl⟩
      · rw [if_neg hl, if_pos hb]
        exact ⟨fun _ h => Except.noConfusion h, rfl⟩
  · intro other hlen hchars hother hne
    simp only [renameAgent, if_neg (by rw [hlen]; simp : ¬ (nameLenOk newName = false)),
      if_neg (by rw [hchars]; simp : ¬ (nameCharsOk newName = false)), ha, hother]
    rw [if_pos hne]
  · intro hlen hchars hfree
    simp only [renameAgent, if_neg (by rw [hlen]; simp : ¬ (nameLenOk newName = false)),
      if_neg (by rw [hchars]; simp : ¬ (nameCharsOk newName = false)), ha, hfree]

theorem renameAgent_spec_witness :
    renameAgent "idB" "Bobby" c6State2 =
      (Except.ok ("Bob", "Bobby"),
       { c6State2 with agents := setAgent { c6FreeBob with name := "Bobby" } c6State2.agents }) := by
  exact (renameAgent_spec "idB" "Bobby" c6State2 c6FreeBob rfl).2.2
    (by decide) (by decide) rfl

/-! ## Resource economy bounds (claim C7) -/

/-- One spawn attempt grows the resource table by at most one row, and never
shrinks it. -/
lemma spawnOneResource_length (now : Nat) (inp : SpawnInput) (s : GameState) :
    (spawnOneResource now inp s).1.resources.length = s.resources.length ∨
    (spawnOneResource now inp s).1.resources.length = s.resources.length + 1 := by
  unfold spawnOneResource
  split
  · exact Or.inl rfl
  · right
    simp

lemma spawnLoop_le (now : Nat) (inputs : Nat → SpawnInput) (n att : Nat)
    (st : GameState) (h : st.resources.length ≤ MAX_RESOURCES_ON_MAP) :
    (spawnLoop now inputs n att st).1.resources.length ≤ MAX_RESOURCES_ON_MAP := by
  induction n generalizing att st with
  | zero => exact h
  | succ n ih =>
    rw [spawnLoop]
    split
    · exact h
    · rename_i hlt
      apply ih
      rcases spawnOneResource_length now (inputs att) st with he | he
      · omega
      · omega

lemma spawnLoop_count (now : Nat) (inputs : Nat → SpawnInput) (n att : Nat)
    (st : GameState) (h : st.resources.length + n ≤ MAX_RESOURCES_ON_MAP) :
    (spawnLoop now inputs n att st).2 = att + n := by
  induction n generalizing att st with
  | zero => rfl
  | succ n ih =>
    rw [spawnLoop]
    rw [if_neg (by omega)]
    rcases spawnOneResource_length now (inputs att) st with he | he
    · rw [ih (att + 1) _ (by omega)]
      omega
    · rw [ih (att + 1) _ (by omega)]
      omega

/-- Per-tick ceiling preservation for the resource top-up. -/
lemma tickResources_le (now : Nat) (inputs : Nat → SpawnInput) (s : GameState)
    (h : s.resources.length ≤ MAX_RESOURCES_ON_MAP) :
    (tickResources now inputs s).resources.length ≤ MAX_RESOURCES_ON_MAP := by
  unfold tickResources tickResourcesCounted
  dsimp only
  split
  · exact h
  · exact spawnLoop_le now inputs _ 0 s h

/-- The other tick phases do not touch the resource table. -/
lemma respawnStep_resources (now : Nat) (cands : List (Int × Int)) (aid : String)
    (s : GameState) : (respawnStep now cands aid s).resources = s.resources := by
  unfold respawnStep
  repeat' split
  all_goals rfl

lemma healStep_resources (aid : String) (s : GameState) :
    (healStep aid s).resources = s.resources := by
  unfold healStep
  repeat' split
  all_goals rfl

lemma tickRespawns_resources (now : Nat) (cands : Nat → List (Int × Int))
    (s : GameState) : (tickRespawns now cands s).resources = s.resources := by
  unfold tickRespawns
  generalize (s.agents.map Agent.id).enum = l
  induction l generalizing s with
  | nil => rfl
  | cons p t ih =>
    rw [List.foldl_cons]
    rw [ih]
    unfold respawnHealStep
    rw [healStep_resources, respawnStep_resources]

lemma tickInactivity_resources (now : Nat) (s : GameState) :
    (tickInactivity now s).resources = s.resources := rfl

/-- An input record for one full game tick. -/
structure TickIn where
  now : Nat
  rcands : Nat → List (Int × Int)
  sinputs : Nat → SpawnInput

def iterTicks (l : List TickIn) (s : GameState) : GameState :=
  l.foldl (fun st ti => tick ti.now ti.rcands ti.sinputs st) s

/-- C7: from any state whose resource population is at or below the ceiling
(80), any number of tick cycles keeps the population at or below the ceiling;
and within one tick the number of spawn attempts is exactly 8 (the burst
batch) iff the population is strictly below the floor (20), exactly 1 when it
is between floor and ceiling, and 0 at or above the ceiling. -/
theorem resource_ceiling_and_burst :
    (∀ (l : List TickIn) (s : GameState),
      s.resources.length ≤ MAX_RESOURCES_ON_MAP →
      (iterTicks l s).resources.length ≤ MAX_RESOURCES_ON_MAP) ∧
    (∀ (now : Nat) (inputs : Nat → SpawnInput) (s : GameState),
      s.resources.length ≤ MAX_RESOURCES_ON_MAP →
      (tickResourcesCounted now inputs s).2 =
        if s.resources.length < MIN_RESOURCES_ON_MAP then RESOURCE_BURST_COUNT
        else if s.resources.length < MAX_RESOURCES_ON_MAP then 1
        else 0) := by
  constructor
  · intro l
    induction l with
    | nil => intro s h; exact h
    | cons ti t ih =>
      intro s h
      unfold iterTicks
      rw [List.foldl_cons]
      apply ih
      unfold tick
      rw [tickInactivity_resources]
      apply tickResources_le
      rw [tickRespawns_resources]
      exact h
  · intro now inputs s h
    have hmax : MAX_RESOURCES_ON_MAP = 80 := rfl
    have hmin : MIN_RESOURCES_ON_MAP = 20 := rfl
    have hburst : RESOURCE_BURST_COUNT = 8 := rfl
    unfold tickResourcesCounted
    dsimp only
    by_cases hceil : s.resources.length ≥ MAX_RESOURCES_ON_MAP
    · rw [if_pos hceil]
      rw [if_neg (by rw [hmin]; rw [hmax] at hceil; omega)]
      rw [if_neg (by omega)]
    · rw [if_neg hceil]
      by_cases hfloor : s.resources.length < MIN_RESOURCES_ON_MAP
      · rw [if_pos hfloor, if_pos hfloor]
        exact spawnLoop_count now inputs RESOURCE_BURST_COUNT 0 s
          (by rw [hmin] at hfloor; rw [hburst, hmax]; omega)
      · rw [if_neg hfloor, if_neg hfloor]
        rw [if_pos (by omega)]
        exact spawnLoop_count now inputs 1 0 s (by rw [hmax]; rw [hmax] at hceil; omega)

/-- Witness for C7: the empty world stays at or below the ceiling, and its
burst batch is 8 attempts (population 0 < floor 20). -/
def c7Input : SpawnInput := { r := 0, cands := [], amtRoll := 0, rid := "res0" }

def c7Tick : TickIn := { now := 0, rcands := fun _ => [], sinputs := fun _ => c7Input }

def c7State : GameState := initState (fun _ _ => Terrain.WALL)

theorem resource_ceiling_and_burst_witness :
    (iterTicks [c7Tick] c7State).resources.length ≤ MAX_RESOURCES_ON_MAP ∧
    (tickResourcesCounted 0 (fun _ => c7Input) c7State).2 = 8 := by
  constructor
  · exact resource_ceiling_and_burst.1 [c7Tick] c7State (by decide)
  · rw [resource_ceiling_and_burst.2 0 (fun _ => c7Input) c7State (by decide)]
    decide

/-! ## Single-occupancy invariant (claim C1): definitions -/

/-- Two agent records do not both sit alive on one cell. -/
def OccOK (a b : Agent) : Prop :=
  a.alive = true → b.alive = true → ¬(a.x = b.x ∧ a.y = b.y)

instance (a b : Agent) : Decidable (OccOK a b) := by
  unfold OccOK
  infer_instance

/-- At most one alive agent occupies any grid cell. -/
def SingleOcc (s : GameState) : Prop := s.agents.Pairwise OccOK

/-- Agent ids are pairwise distinct (the store's PRIMARY KEY constraint). -/
def IdsNodup (s : GameState) : Prop := (s.agents.map Agent.id).Nodup

def Inv (s : GameState) : Prop := SingleOcc s ∧ IdsNodup s

/-- Terrains producible by `generateMap`: every border cell is a wall. -/
def BorderWalls (t : Int → Int → Terrain) : Prop :=
  ∀ x y : Int, (x = 0 ∨ x = 49 ∨ y = 0 ∨ y = 49) → t x y = Terrain.WALL

def cellsFinset : Finset (Int × Int) := Finset.Icc (0 : Int) 49 ×ˢ Finset.Icc (0 : Int) 49

/-- Number of passable cells of a terrain. -/
def passableCount (t : Int → Int → Terrain) : Nat :=
  (cellsFinset.filter (fun c => isPassable t c.1 c.2 = true)).card

/-! ## Single-occupancy: list lemmas about the store operations -/

lemma setAgent_map_id (a : Agent) (l : List Agent) :
    (setAgent a l).map Agent.id = l.map Agent.id := by
  unfold setAgent
  rw [List.map_map]
  apply List.map_congr_left
  intro b _
  by_cases h : b.id = a.id
  · simp [h]
  · simp [h]

lemma setAgent_length (a : Agent) (l : List Agent) :
    (setAgent a l).length = l.length := by
  unfold setAgent
  rw [List.length_map]

lemma setAgent_eq_of_not_mem {a' : Agent} {l : List Agent}
    (h : ∀ b ∈ l, b.id ≠ a'.id) : setAgent a' l = l := by
  induction l with
  | nil => rfl
  | cons hd tl ih =>
    have h1 : hd.id ≠ a'.id := h hd (List.mem_cons_self hd tl)
    have h2 : setAgent a' tl = tl := ih (fun b hb => h b (List.mem_cons_of_mem _ hb))
    unfold setAgent at h2 ⊢
    rw [List.map_cons, if_neg h1, h2]

lemma mem_setAgent {a' b : Agent} {l : List Agent} (hb : b ∈ setAgent a' l) :
    b = a' ∨ b ∈ l := by
  unfold setAgent at hb
  obtain ⟨c, hc, hcb⟩ := List.mem_map.mp hb
  by_cases h : c.id = a'.id
  · rw [if_pos h] at hcb
    exact Or.inl hcb.symm
  · rw [if_neg h] at hcb
    exact Or.inr (hcb ▸ hc)

lemma mem_setAgent_of_ne {a' b : Agent} {l : List Agent}
    (hb : b ∈ l) (hne : b.id ≠ a'.id) : b ∈ setAgent a' l := by
  unfold setAgent
  apply List.mem_map.mpr
  exact ⟨b, hb, by simp [hne]⟩

lemma id_unique {l : List Agent} (hnd : (l.map Agent.id).Nodup) {a b : Agent}
    (ha : a ∈ l) (hb : b ∈ l) (h : a.id = b.id) : a = b :=
  List.inj_on_of_nodup_map hnd ha hb h

/-- Replacing the (unique) agent with `a'.id` by a record on a cell no alive
agent occupies preserves single occupancy. -/
lemma pairwise_setAgent_free {a' : Agent} {l : List Agent}
    (hnd : (l.map Agent.id).Nodup)
    (hp : l.Pairwise OccOK)
    (hfree : ∀ b ∈ l, b.alive = true → ¬(b.x = a'.x ∧ b.y = a'.y)) :
    (setAgent a' l).Pairwise OccOK := by
  induction l with
  | nil => exact List.Pairwise.nil
  | cons hd tl ih =>
    rw [List.map_cons, List.nodup_cons] at hnd
    obtain ⟨hhd, hndtl⟩ := hnd
    obtain ⟨hph, hptl⟩ := List.pairwise_cons.mp hp
    unfold setAgent
    rw [List.map_cons]
    by_cases hc : hd.id = a'.id
    · rw [if_pos hc]
      have hrest : List.map (fun b => if b.id = a'.id then a' else b) tl = tl := by
        have h := @setAgent_eq_of_not_mem a' tl ?_
        · unfold setAgent at h
          exact h
        · intro b hb hbid
          apply hhd
          rw [hc, ← hbid]
          exact List.mem_map_of_mem _ hb
      rw [hrest]
      apply List.pairwise_cons.mpr
      refine ⟨?_, hptl⟩
      intro b hb _ halb hpos
      exact hfree b (List.mem_cons_of_mem _ hb) halb ⟨hpos.1.symm, hpos.2.symm⟩
    · rw [if_neg hc]
      apply List.pairwise_cons.mpr
      constructor
      · intro b hb
        rcases mem_setAgent (show b ∈ setAgent a' tl from hb) with rfl | hbtl
        · intro halhd _ hpos
          exact hfree hd (List.mem_cons_self hd tl) halhd hpos
        · exact hph b hbtl
      · exact ih hndtl hptl (fun b hb => hfree b (List.mem_cons_of_mem _ hb))

/-- Replacing the (unique) agent with `a'.id` by a record with the same
position whose aliveness only decreases preserves single occupancy. -/
lemma pairwise_setAgent_update {a a' : Agent} {l : List Agent}
    (hnd : (l.map Agent.id).Nodup)
    (hp : l.Pairwise OccOK)
    (ha : a ∈ l) (hid : a'.id = a.id)
    (hx : a'.x = a.x) (hy : a'.y = a.y)
    (hal : a'.alive = true → a.alive = true) :
    (setAgent a' l).Pairwise OccOK := by
  induction l with
  | nil => exact List.Pairwise.nil
  | cons hd tl ih =>
    rw [List.map_cons, List.nodup_cons] at hnd
    obtain ⟨hhd, hndtl⟩ := hnd
    obtain ⟨hph, hptl⟩ := List.pairwise_cons.mp hp
    unfold setAgent
    rw [List.map_cons]
    by_cases hc : hd.id = a'.id
    · have hda : hd = a := by
        rcases List.mem_cons.mp ha with h | h
        · exact h.symm
        · exfalso
          apply hhd
          rw [hc, hid]
          exact List.mem_map_of_mem _ h
      rw [if_pos hc]
      have hrest : List.map (fun b => if b.id = a'.id then a' else b) tl = tl := by
        have h := @setAgent_eq_of_not_mem a' tl ?_
        · unfold setAgent at h
          exact h
        · intro b hb hbid
          apply hhd
          rw [hc, ← hbid]
          exact List.mem_map_of_mem _ hb
      rw [hrest]
      apply List.pairwise_cons.mpr
      refine ⟨?_, hptl⟩
      intro b hb hala' halb hpos
      rw [hx, hy, ← hda] at hpos
      have hhdal : hd.alive = true := by rw [hda]; exact hal hala'
      exact hph b hb hhdal halb hpos
    · have hatl : a ∈ tl := by
        rcases List.mem_cons.mp ha with h | h
        · exact absurd (hid ▸ congrArg Agent.id h.symm) hc
        · exact h
      rw [if_neg hc]
      apply List.pairwise_cons.mpr
      constructor
      · intro b hb
        rcases mem_setAgent (show b ∈ setAgent a' tl from hb) with rfl | hbtl
        · intro halhd halb hpos
          rw [hx, hy] at hpos
          exact hph a hatl halhd (hal halb) hpos
        · exact hph b hbtl
      · exact ih hndtl hptl hatl

/-- Appending a fresh agent on a cell no alive agent occupies preserves
single occupancy. -/
lemma pairwise_append_free {a' : Agent} {l : List Agent}
    (hp : l.Pairwise OccOK)
    (hfree : ∀ b ∈ l, b.alive = true → ¬(b.x = a'.x ∧ b.y = a'.y)) :
    (l ++ [a']).Pairwise OccOK := by
  rw [List.pairwise_append]
  refine ⟨hp, List.pairwise_singleton _ _, ?_⟩
  intro b hb c hc
  rw [List.mem_singleton] at hc
  subst hc
  intro hba hca hpos
  exact hfree b hb hba hpos

/-- Pointwise transformations that keep positions and do not resurrect
preserve single occupancy. -/
lemma pairwise_map_occ {f : Agent → Agent} {l : List Agent}
    (hf : ∀ b, (f b).x = b.x ∧ (f b).y = b.y ∧ ((f b).alive = true → b.alive = true))
    (hp : l.Pairwise OccOK) : (l.map f).Pairwise OccOK := by
  apply List.Pairwise.map f ?_ hp
  intro a b hab hala halb hpos
  apply hab ((hf a).2.2 hala) ((hf b).2.2 halb)
  rw [← (hf a).1, ← (hf a).2.1, ← (hf b).1, ← (hf b).2.1]
  exact hpos

/-! ## Single-occupancy: store-query lemmas -/

lemma getAgentAt_eq_none {x y : Int} {s : GameState} (h : getAgentAt x y s = none) :
    ∀ b ∈ s.agents, b.alive = true → ¬(b.x = x ∧ b.y = y) := by
  intro b hb hal hpos
  have hnp := List.find?_eq_none.mp h b hb
  simp [hpos.1, hpos.2, hal] at hnp

lemma getAgentAt_some {x y : Int} {s : GameState} {b : Agent}
    (h : getAgentAt x y s = some b) :
    b ∈ s.agents ∧ b.x = x ∧ b.y = y ∧ b.alive = true := by
  have hm := List.mem_of_find?_eq_some h
  have hp := List.find?_some h
  simp only [Bool.and_eq_true, beq_iff_eq] at hp
  exact ⟨hm, hp.1.1, hp.1.2, hp.2⟩

lemma getAgentById_some {i : String} {s : GameState} {a : Agent}
    (h : getAgentById i s = some a) : a ∈ s.agents ∧ a.id = i := by
  refine ⟨List.mem_of_find?_eq_some h, ?_⟩
  have hp := List.find?_some h
  simpa using hp

lemma DIRECTIONS_ne_zero {dd : String} {d : Int × Int}
    (h : DIRECTIONS dd = some d) : ¬(d.1 = 0 ∧ d.2 = 0) := by
  unfold DIRECTIONS at h
  split at h <;> first
    | (cases h; decide)
    | exact absurd h (by simp)

/-! ## Single-occupancy: the spawn search finds a free cell when one exists -/

lemma exists_free_cell {s : GameState}
    (hroom : s.agents.length < passableCount s.terrain) :
    ∃ c : Int × Int, isPassable s.terrain c.1 c.2 = true ∧ getAgentAt c.1 c.2 s = none := by
  by_contra hcon
  push_neg at hcon
  have hsub : cellsFinset.filter (fun c => isPassable s.terrain c.1 c.2 = true) ⊆
      ((s.agents.filter (fun b => b.alive)).map (fun b => (b.x, b.y))).toFinset := by
    intro c hc
    rw [Finset.mem_filter] at hc
    obtain ⟨b, hb⟩ := Option.ne_none_iff_exists'.mp (hcon c hc.2)
    obtain ⟨hmem, hbx, hby, hal⟩ := getAgentAt_some hb
    rw [List.mem_toFinset]
    apply List.mem_map.mpr
    refine ⟨b, List.mem_filter.mpr ⟨hmem, hal⟩, ?_⟩
    rw [hbx, hby]
  have hcard := Finset.card_le_card hsub
  have h1 : ((s.agents.filter (fun b => b.alive)).map (fun b => (b.x, b.y))).toFinset.card ≤
      s.agents.length := by
    refine le_trans (List.toFinset_card_le _) ?_
    rw [List.length_map]
    exact List.length_filter_le _ _
  unfold passableCount at hroom
  omega

lemma mem_scanCells {x y : Int} (hx : 1 ≤ x) (hx2 : x ≤ 48) (hy : 1 ≤ y) (hy2 : y ≤ 48) :
    (x, y) ∈ scanCells := by
  unfold scanCells
  rw [List.mem_flatMap]
  refine ⟨(y - 1).toNat, ?_, ?_⟩
  · exact List.mem_range.mpr (by omega)
  apply List.mem_map.mpr
  refine ⟨(x - 1).toNat, ?_, ?_⟩
  · exact List.mem_range.mpr (by omega)
  simp only [Prod.mk.injEq, Int.ofNat_eq_coe]
  constructor <;> omega

lemma passable_interior {t : Int → Int → Terrain} (hb : BorderWalls t) {x y : Int}
    (hp : isPassable t x y = true) : 1 ≤ x ∧ x ≤ 48 ∧ 1 ≤ y ∧ y ≤ 48 := by
  unfold isPassable at hp
  rw [decide_eq_true_eq] at hp
  obtain ⟨h0, h1, h2, h3, hter⟩ := hp
  have hW : MAP_WIDTH = 50 := rfl
  have hH : MAP_HEIGHT = 50 := rfl
  rw [hW] at h1
  rw [hH] at h3
  have hwall : t x y ≠ Terrain.WALL := by
    rcases hter with h | h <;> rw [h] <;> exact fun hcc => Terrain.noConfusion hcc
  have hx0 : x ≠ 0 := fun h => hwall (hb x y (Or.inl h))
  have hx49 : x ≠ 49 := fun h => hwall (hb x y (Or.inr (Or.inl h)))
  have hy0 : y ≠ 0 := fun h => hwall (hb x y (Or.inr (Or.inr (Or.inl h))))
  have hy49 : y ≠ 49 := fun h => hwall (hb x y (Or.inr (Or.inr (Or.inr h))))
  omega

/-- When fewer agents exist than passable cells, the spawn search lands on a
cell occupied by no alive agent (the fallback branch is not reached). -/
lemma findSpawnPoint_unoccupied {s : GameState} (cands : List (Int × Int))
    (hb : BorderWalls s.terrain)
    (hroom : s.agents.length < passableCount s.terrain) :
    getAgentAt (findSpawnPoint cands s).1 (findSpawnPoint cands s).2 s = none := by
  unfold findSpawnPoint
  cases hf : cands.find? (spawnCandOk s) with
  | some c =>
    have hp := List.find?_some hf
    unfold spawnCandOk at hp
    simp only [Bool.and_eq_true, Option.isNone_iff_eq_none] at hp
    exact hp.1.2
  | none =>
    cases hg : scanCells.find? (fun c => isPassable s.terrain c.1 c.2 && (getAgentAt c.1 c.2 s).isNone) with
    | some c =>
      have hp := List.find?_some hg
      simp only [Bool.and_eq_true, Option.isNone_iff_eq_none] at hp
      exact hp.2
    | none =>
      exfalso
      obtain ⟨c, hcp, hcn⟩ := exists_free_cell hroom
      have hmem : c ∈ scanCells := by
        obtain ⟨h1, h2, h3, h4⟩ := passable_interior hb hcp
        exact mem_scanCells h1 h2 h3 h4
      have hnp := List.find?_eq_none.mp hg c hmem
      simp [hcp, hcn] at hnp

lemma findSpawnPoint_free {s : GameState} (cands : List (Int × Int))
    (hb : BorderWalls s.terrain)
    (hroom : s.agents.length < passableCount s.terrain) :
    ∀ b ∈ s.agents, b.alive = true →
      ¬(b.x = (findSpawnPoint cands s).1 ∧ b.y = (findSpawnPoint cands s).2) :=
  getAgentAt_eq_none (findSpawnPoint_unoccupied cands hb hroom)

/-! ## Single-occupancy: mutations keep positions, aliveness and ids -/

lemma applyCooldown_fields (now : Nat) (a : Agent) (action : ActionKind) :
    (applyCooldown now a action).x = a.x ∧ (applyCooldown now a action).y = a.y ∧
    (applyCooldown now a action).alive = a.alive ∧ (applyCooldown now a action).id = a.id :=
  ⟨rfl, rfl, rfl, rfl⟩

lemma levelLoop_fields (a : Agent) :
    (levelLoop a).1.x = a.x ∧ (levelLoop a).1.y = a.y ∧
    (levelLoop a).1.alive = a.alive ∧ (levelLoop a).1.id = a.id := by
  rw [levelLoop]
  split
  · rename_i h
    exact levelLoop_fields (levelOnce a)
  · exact ⟨rfl, rfl, rfl, rfl⟩
termination_by a.xp
decreasing_by
  rename_i h
  simp only [levelOnce]
  exact Nat.sub_lt (Nat.lt_of_lt_of_le h.1 h.2) h.1

lemma addXp_fields (now : Nat) (a : Agent) (amount : Nat) :
    (addXp now a amount).1.x = a.x ∧ (addXp now a amount).1.y = a.y ∧
    (addXp now a amount).1.alive = a.alive ∧ (addXp now a amount).1.id = a.id :=
  levelLoop_fields { a with xp := a.xp + amount }

/-! ## Single-occupancy: preservation by each engine operation -/

lemma move_inv (now : Nat) (agentId direction : String) (s : GameState)
    (hInv : Inv s) :
    Inv (move now agentId direction s).2 ∧ (move now agentId direction s).2.terrain = s.terrain := by
  unfold move
  dsimp only
  split
  · exact ⟨hInv, rfl⟩
  split
  · exact ⟨hInv, rfl⟩
  split
  · exact ⟨hInv, rfl⟩
  split
  · exact ⟨hInv, rfl⟩
  split
  · exact ⟨hInv, rfl⟩
  split
  · exact ⟨hInv, rfl⟩
  rename_i x1 a hga hal x2 hcd x3 d hdir hpass x4 hocc
  have hfree : ∀ b ∈ s.agents, b.alive = true → ¬(b.x = a.x + d.1 ∧ b.y = a.y + d.2) :=
    getAgentAt_eq_none hocc
  split
  · refine ⟨⟨pairwise_setAgent_free hInv.2 hInv.1 hfree, ?_⟩, rfl⟩
    show ((setAgent _ s.agents).map Agent.id).Nodup
    rw [setAgent_map_id]
    exact hInv.2
  · refine ⟨⟨pairwise_setAgent_free hInv.2 hInv.1 hfree, ?_⟩, rfl⟩
    show ((setAgent _ s.agents).map Agent.id).Nodup
    rw [setAgent_map_id]
    exact hInv.2

lemma double_update_pairwise {l : List Agent}
    (hnd : (l.map Agent.id).Nodup) (hp : l.Pairwise OccOK)
    {a target a2 t2 : Agent}
    (ha : a ∈ l) (htg : target ∈ l) (hne : target.id ≠ a.id)
    (hid2 : a2.id = a.id) (hx2 : a2.x = a.x) (hy2 : a2.y = a.y)
    (hal2 : a2.alive = true → a.alive = true)
    (hidt : t2.id = target.id) (hxt : t2.x = target.x) (hyt : t2.y = target.y)
    (halt : t2.alive = true → target.alive = true) :
    (setAgent t2 (setAgent a2 l)).Pairwise OccOK := by
  have hp1 : (setAgent a2 l).Pairwise OccOK :=
    pairwise_setAgent_update hnd hp ha hid2 hx2 hy2 hal2
  have hnd1 : ((setAgent a2 l).map Agent.id).Nodup := by
    rw [setAgent_map_id]
    exact hnd
  have htg1 : target ∈ setAgent a2 l :=
    mem_setAgent_of_ne htg (by rw [hid2]; exact hne)
  exact pairwise_setAgent_update hnd1 hp1 htg1 hidt hxt hyt halt

lemma target_ne_attacker {s : GameState} (hnd : IdsNodup s) {a target : Agent}
    {d : Int × Int} (ha : a ∈ s.agents)
    (htg : getAgentAt (a.x + d.1) (a.y + d.2) s = some target)
    (hdz : ¬(d.1 = 0 ∧ d.2 = 0)) : target.id ≠ a.id := by
  obtain ⟨hm, hx, hy, _⟩ := getAgentAt_some htg
  intro hid
  have heq := id_unique hnd hm ha hid
  rw [heq] at hx hy
  exact hdz ⟨by omega, by omega⟩

lemma getAgentByName_some {n : String} {s : GameState} {a : Agent}
    (h : getAgentByName n s = some a) : a ∈ s.agents :=
  List.mem_of_find?_eq_some h

lemma attack_inv (now : Nat) (roll : Int) (agentId direction : String) (s : GameState)
    (hInv : Inv s) :
    Inv (attack now roll agentId direction s).2 ∧
    (attack now roll agentId direction s).2.terrain = s.terrain := by
  unfold attack
  dsimp only
  split
  · exact ⟨hInv, rfl⟩
  split
  · exact ⟨hInv, rfl⟩
  split
  · exact ⟨hInv, rfl⟩
  split
  · exact ⟨hInv, rfl⟩
  split
  · exact ⟨hInv, rfl⟩
  split
  · exact ⟨hInv, rfl⟩
  split
  · exact ⟨hInv, rfl⟩
  rename_i x1 a hga hal x2 hcd x3 d hdir x4 tg htg hh1 hh2
  obtain ⟨haM, haId⟩ := getAgentById_some hga
  have hneq : tg.id ≠ a.id :=
    target_ne_attacker hInv.2 haM htg (DIRECTIONS_ne_zero hdir)
  have htgM := (getAgentAt_some htg).1
  have h1 := addXp_fields now (applyCooldown now a ActionKind.attack) XP_ATTACK_HIT
  split
  · refine ⟨⟨?_, ?_⟩, rfl⟩
    · apply double_update_pairwise hInv.2 hInv.1 haM htgM hneq
      · exact ((addXp_fields now _ XP_KILL).2.2.2).trans h1.2.2.2
      · exact ((addXp_fields now _ XP_KILL).1).trans h1.1
      · exact ((addXp_fields now _ XP_KILL).2.1).trans h1.2.1
      · intro hh
        rw [(addXp_fields now _ XP_KILL).2.2.1, h1.2.2.1] at hh
        exact hh
      · rfl
      · rfl
      · rfl
      · intro hh
        exact (Bool.false_ne_true hh).elim
    · show ((setAgent _ (setAgent _ s.agents)).map Agent.id).Nodup
      rw [setAgent_map_id, setAgent_map_id]
      exact hInv.2
  · refine ⟨⟨?_, ?_⟩, rfl⟩
    · apply double_update_pairwise hInv.2 hInv.1 haM htgM hneq
      · exact h1.2.2.2
      · exact h1.1
      · exact h1.2.1
      · intro hh
        rw [h1.2.2.1] at hh
        exact hh
      · rfl
      · rfl
      · rfl
      · exact fun hh => hh
    · show ((setAgent _ (setAgent _ s.agents)).map Agent.id).Nodup
      rw [setAgent_map_id, setAgent_map_id]
      exact hInv.2

lemma gather_inv (now : Nat) (agentId : String) (s : GameState) (hInv : Inv s) :
    Inv (gather now agentId s).2 ∧ (gather now agentId s).2.terrain = s.terrain := by
  unfold gather
  dsimp only
  split
  · exact ⟨hInv, rfl⟩
  split
  · exact ⟨hInv, rfl⟩
  split
  · exact ⟨hInv, rfl⟩
  split
  · exact ⟨hInv, rfl⟩
  rename_i x1 a hga hal x2 hcd x3 res hres
  obtain ⟨haM, haId⟩ := getAgentById_some hga
  refine ⟨⟨?_, ?_⟩, rfl⟩
  · have h1 := addXp_fields now
      (applyCooldown now { a with inventory := a.inventory.add res.type (res.amount * getGatherBonus a) } ActionKind.gather)
      (xpRewardGather res.type * getGatherBonus a)
    apply pairwise_setAgent_update hInv.2 hInv.1 haM
    · exact h1.2.2.2
    · exact h1.1
    · exact h1.2.1
    · intro hh
      rw [h1.2.2.1] at hh
      exact hh
  · show ((setAgent _ s.agents).map Agent.id).Nodup
    rw [setAgent_map_id]
    exact hInv.2

/-- Invariant for a state whose agent table replaces one agent in place
(same position, aliveness only decreasing). -/
lemma update_state_inv {s : GameState} (hInv : Inv s) {a a' : Agent}
    (ha : a ∈ s.agents) (hid : a'.id = a.id) (hx : a'.x = a.x) (hy : a'.y = a.y)
    (hal : a'.alive = true → a.alive = true)
    (t : Int → Int → Terrain) (res : List MapResource) (evs : List GameEvent) :
    Inv { terrain := t, agents := setAgent a' s.agents, resources := res, events := evs } := by
  constructor
  · exact pairwise_setAgent_update hInv.2 hInv.1 ha hid hx hy hal
  · show ((setAgent a' s.agents).map Agent.id).Nodup
    rw [setAgent_map_id]
    exact hInv.2

/-- Invariant for a state updating two distinct agents in place. -/
lemma update2_state_inv {s : GameState} (hInv : Inv s) {a target a2 t2 : Agent}
    (ha : a ∈ s.agents) (htg : target ∈ s.agents) (hne : target.id ≠ a.id)
    (hid2 : a2.id = a.id) (hx2 : a2.x = a.x) (hy2 : a2.y = a.y)
    (hal2 : a2.alive = true → a.alive = true)
    (hidt : t2.id = target.id) (hxt : t2.x = target.x) (hyt : t2.y = target.y)
    (halt : t2.alive = true → target.alive = true)
    (t : Int → Int → Terrain) (res : List MapResource) (evs : List GameEvent) :
    Inv { terrain := t, agents := setAgent t2 (setAgent a2 s.agents), resources := res, events := evs } := by
  constructor
  · exact double_update_pairwise hInv.2 hInv.1 ha htg hne hid2 hx2 hy2 hal2 hidt hxt hyt halt
  · show ((setAgent t2 (setAgent a2 s.agents)).map Agent.id).Nodup
    rw [setAgent_map_id, setAgent_map_id]
    exact hInv.2

/-- Invariant for a state appending a fresh agent on a free cell. -/
lemma append_state_inv {s : GameState} (hInv : Inv s) {a' : Agent}
    (hfree : ∀ b ∈ s.agents, b.alive = true → ¬(b.x = a'.x ∧ b.y = a'.y))
    (hfresh : ∀ b ∈ s.agents, b.id ≠ a'.id)
    (t : Int → Int → Terrain) (res : List MapResource) (evs : List GameEvent) :
    Inv { terrain := t, agents := s.agents ++ [a'], resources := res, events := evs } := by
  constructor
  · exact pairwise_append_free hInv.1 hfree
  · show ((s.agents ++ [a']).map Agent.id).Nodup
    rw [List.map_append]
    refine List.Nodup.append hInv.2 (List.nodup_singleton _) ?_
    intro idv h1 h2
    obtain ⟨b, hb, hbid⟩ := List.mem_map.mp h1
    rw [List.map_singleton, List.mem_singleton] at h2
    exact hfresh b hb (hbid.trans h2)

lemma useSkill_inv (now : Nat) (roll : Int) (agentId skillName : String)
    (direction : Option String) (s : GameState) (hInv : Inv s) :
    Inv (useSkill now roll agentId skillName direction s).2 ∧
    (useSkill now roll agentId skillName direction s).2.terrain = s.terrain := by
  unfold useSkill
  dsimp only
  split
  · exact ⟨hInv, rfl⟩
  rename_i x1 a hga
  obtain ⟨haM, haId⟩ := getAgentById_some hga
  split
  · exact ⟨hInv, rfl⟩
  split
  · exact ⟨hInv, rfl⟩
  split
  · -- heal success
    refine ⟨update_state_inv hInv haM ?_ ?_ ?_ ?_ _ _ _, rfl⟩
    · rfl
    · rfl
    · rfl
    · exact fun hh => hh
  split
  · -- no direction: the scout-or-unknown tail
    split
    · split
      · exact ⟨hInv, rfl⟩
      · refine ⟨update_state_inv hInv haM ?_ ?_ ?_ ?_ _ _ _, rfl⟩
        · rfl
        · rfl
        · rfl
        · exact fun hh => hh
    · exact ⟨hInv, rfl⟩
  -- direction present
  split
  · -- not power_strike: the scout-or-unknown tail
    split
    · split
      · exact ⟨hInv, rfl⟩
      · refine ⟨update_state_inv hInv haM ?_ ?_ ?_ ?_ _ _ _, rfl⟩
        · rfl
        · rfl
        · rfl
        · exact fun hh => hh
    · exact ⟨hInv, rfl⟩
  split
  · exact ⟨hInv, rfl⟩
  split
  · exact ⟨hInv, rfl⟩
  split
  · exact ⟨hInv, rfl⟩
  split
  · exact ⟨hInv, rfl⟩
  split
  · exact ⟨hInv, rfl⟩
  rename_i hps hmight x5 d hdir hh1 hh2 x6 tg htg
  have hneq : tg.id ≠ a.id :=
    target_ne_attacker hInv.2 haM htg (DIRECTIONS_ne_zero hdir)
  have htgM := (getAgentAt_some htg).1
  split
  · -- kill
    refine ⟨?_, rfl⟩
    apply update2_state_inv hInv haM htgM hneq
    · exact (addXp_fields now _ (XP_KILL * 2)).2.2.2
    · exact (addXp_fields now _ (XP_KILL * 2)).1
    · exact (addXp_fields now _ (XP_KILL * 2)).2.1
    · intro hh
      rw [(addXp_fields now _ (XP_KILL * 2)).2.2.1] at hh
      exact hh
    · rfl
    · rfl
    · rfl
    · intro hh
      exact (Bool.false_ne_true hh).elim
  · -- plain hit
    refine ⟨update2_state_inv hInv haM htgM hneq ?_ ?_ ?_ ?_ ?_ ?_ ?_ ?_ _ _ _, rfl⟩
    · rfl
    · rfl
    · rfl
    · exact fun hh => hh
    · rfl
    · rfl
    · rfl
    · exact fun hh => hh

lemma register_inv (hash : String → String) (now : Nat) (newId : String)
    (cands : List (Int × Int)) (sessionId name : String) (secret : Option String)
    (s : GameState) (hInv : Inv s)
    (hbw : BorderWalls s.terrain)
    (hroom : s.agents.length < passableCount s.terrain)
    (hfresh : ∀ b ∈ s.agents, b.id ≠ newId) :
    Inv (register hash now newId cands sessionId name secret s).2 ∧
    (register hash now newId cands sessionId name secret s).2.terrain = s.terrain := by
  unfold register
  dsimp only
  split
  · exact ⟨hInv, rfl⟩
  split
  · exact ⟨hInv, rfl⟩
  split
  · exact ⟨hInv, rfl⟩
  split
  · -- a stored agent already carries this name
    rename_i x1 byName hbn
    have hbnM := getAgentByName_some hbn
    repeat' split
    all_goals first
      | exact ⟨hInv, rfl⟩
      | (refine ⟨update_state_inv hInv hbnM ?_ ?_ ?_ ?_ _ _ _, rfl⟩ <;>
          first | rfl | exact fun hh => hh)
  · -- brand-new registration: spawn placement
    split
    · exact ⟨hInv, rfl⟩
    · refine ⟨append_state_inv hInv ?_ ?_ _ _ _, rfl⟩
      · exact findSpawnPoint_free cands hbw hroom
      · exact hfresh

lemma respawnStep_inv (now : Nat) (cands : List (Int × Int)) (aid : String)
    {s : GameState} (hInv : Inv s)
    (hbw : BorderWalls s.terrain)
    (hroom : s.agents.length < passableCount s.terrain) :
    Inv (respawnStep now cands aid s) ∧
    (respawnStep now cands aid s).terrain = s.terrain ∧
    (respawnStep now cands aid s).agents.length = s.agents.length := by
  unfold respawnStep
  dsimp only
  split
  · exact ⟨hInv, rfl, rfl⟩
  split
  · split
    · refine ⟨⟨?_, ?_⟩, rfl, ?_⟩
      · exact pairwise_setAgent_free hInv.2 hInv.1 (findSpawnPoint_free cands hbw hroom)
      · show ((setAgent _ s.agents).map Agent.id).Nodup
        rw [setAgent_map_id]
        exact hInv.2
      · exact setAgent_length _ _
    · exact ⟨hInv, rfl, rfl⟩
  · exact ⟨hInv, rfl, rfl⟩

lemma healStep_inv (aid : String) {s : GameState} (hInv : Inv s) :
    Inv (healStep aid s) ∧ (healStep aid s).terrain = s.terrain ∧
    (healStep aid s).agents.length = s.agents.length := by
  unfold healStep
  split
  · exact ⟨hInv, rfl, rfl⟩
  rename_i x1 b hgb
  split
  · refine ⟨update_state_inv hInv (getAgentById_some hgb).1 ?_ ?_ ?_ ?_ _ _ _, rfl, ?_⟩
    · rfl
    · rfl
    · rfl
    · exact fun hh => hh
    · exact setAgent_length _ _
  · exact ⟨hInv, rfl, rfl⟩

lemma respawnHealStep_inv (now : Nat) (cands : List (Int × Int)) (aid : String)
    {s : GameState} (hInv : Inv s)
    (hbw : BorderWalls s.terrain)
    (hroom : s.agents.length < passableCount s.terrain) :
    Inv (respawnHealStep now cands aid s) ∧
    (respawnHealStep now cands aid s).terrain = s.terrain ∧
    (respawnHealStep now cands aid s).agents.length = s.agents.length := by
  obtain ⟨h1, h2, h3⟩ := respawnStep_inv now cands aid hInv hbw hroom
  obtain ⟨g1, g2, g3⟩ := healStep_inv aid h1
  exact ⟨g1, g2.trans h2, g3.trans h3⟩

lemma foldl_respawnHeal_inv (now : Nat) (cands : Nat → List (Int × Int))
    (t : Int → Int → Terrain) (hbw : BorderWalls t) (n : Nat)
    (hroom : n < passableCount t) :
    ∀ (l : List (Nat × String)) (st : GameState),
      Inv st → st.terrain = t → st.agents.length = n →
      Inv (l.foldl (fun st p => respawnHealStep now (cands p.1) p.2 st) st) ∧
      (l.foldl (fun st p => respawnHealStep now (cands p.1) p.2 st) st).terrain = t ∧
      (l.foldl (fun st p => respawnHealStep now (cands p.1) p.2 st) st).agents.length = n := by
  intro l
  induction l with
  | nil => intro st h1 h2 h3; exact ⟨h1, h2, h3⟩
  | cons p tl ih =>
    intro st h1 h2 h3
    rw [List.foldl_cons]
    have hbw2 : BorderWalls st.terrain := by rw [h2]; exact hbw
    have hroom2 : st.agents.length < passableCount st.terrain := by
      rw [h2, h3]; exact hroom
    obtain ⟨g1, g2, g3⟩ := respawnHealStep_inv now (cands p.1) p.2 h1 hbw2 hroom2
    exact ih _ g1 (g2.trans h2) (g3.trans h3)

lemma tickRespawns_inv (now : Nat) (cands : Nat → List (Int × Int))
    {s : GameState} (hInv : Inv s) (hbw : BorderWalls s.terrain)
    (hroom : s.agents.length < passableCount s.terrain) :
    Inv (tickRespawns now cands s) ∧
    (tickRespawns now cands s).terrain = s.terrain ∧
    (tickRespawns now cands s).agents.length = s.agents.length := by
  unfold tickRespawns
  exact foldl_respawnHeal_inv now cands s.terrain hbw s.agents.length hroom _ s hInv rfl rfl

lemma spawnOneResource_agents (now : Nat) (inp : SpawnInput) (s : GameState) :
    (spawnOneResource now inp s).1.agents = s.agents ∧
    (spawnOneResource now inp s).1.terrain = s.terrain := by
  unfold spawnOneResource
  dsimp only
  split
  · exact ⟨rfl, rfl⟩
  · exact ⟨rfl, rfl⟩

lemma spawnLoop_agents (now : Nat) (inputs : Nat → SpawnInput) (n att : Nat)
    (st : GameState) :
    (spawnLoop now inputs n att st).1.agents = st.agents ∧
    (spawnLoop now inputs n att st).1.terrain = st.terrain := by
  induction n generalizing att st with
  | zero => exact ⟨rfl, rfl⟩
  | succ n ih =>
    rw [spawnLoop]
    split
    · exact ⟨rfl, rfl⟩
    · obtain ⟨h1, h2⟩ := ih (att + 1) (spawnOneResource now (inputs att) st).1
      obtain ⟨g1, g2⟩ := spawnOneResource_agents now (inputs att) st
      exact ⟨h1.trans g1, h2.trans g2⟩

lemma tickResources_agents (now : Nat) (inputs : Nat → SpawnInput) (s : GameState) :
    (tickResources now inputs s).agents = s.agents ∧
    (tickResources now inputs s).terrain = s.terrain := by
  unfold tickResources tickResourcesCounted
  dsimp only
  split
  · exact ⟨rfl, rfl⟩
  · exact spawnLoop_agents now inputs _ 0 s

lemma tickInactivity_inv (now : Nat) {s : GameState} (hInv : Inv s) :
    Inv (tickInactivity now s) ∧ (tickInactivity now s).terrain = s.terrain := by
  refine ⟨⟨?_, ?_⟩, rfl⟩
  · apply pairwise_map_occ ?_ hInv.1
    intro b
    show ((if evictCond now b then _ else b).x = b.x) ∧ _
    split
    · exact ⟨rfl, rfl, fun hh => hh⟩
    · exact ⟨rfl, rfl, fun hh => hh⟩
  · show ((s.agents.map _).map Agent.id).Nodup
    rw [List.map_map]
    have hmap : s.agents.map
        (Agent.id ∘ fun a => if evictCond now a then { a with session_id := none } else a) =
        s.agents.map Agent.id := by
      apply List.map_congr_left
      intro b _
      show (if evictCond now b then { b with session_id := none } else b).id = b.id
      split
      · rfl
      · rfl
    rw [hmap]
    exact hInv.2

lemma tick_inv (now : Nat) (rcands : Nat → List (Int × Int)) (sinputs : Nat → SpawnInput)
    {s : GameState} (hInv : Inv s) (hbw : BorderWalls s.terrain)
    (hroom : s.agents.length < passableCount s.terrain) :
    Inv (tick now rcands sinputs s) ∧ (tick now rcands sinputs s).terrain = s.terrain := by
  obtain ⟨h1, h2, h3⟩ := tickRespawns_inv now rcands hInv hbw hroom
  obtain ⟨g1, g2⟩ := tickResources_agents now sinputs (tickRespawns now rcands s)
  have hInv2 : Inv (tickResources now sinputs (tickRespawns now rcands s)) := by
    unfold Inv SingleOcc IdsNodup
    rw [g1]
    exact h1
  obtain ⟨k1, k2⟩ := tickInactivity_inv now hInv2
  unfold tick
  exact ⟨k1, (k2.trans g2).trans h2⟩

/-- Side conditions under which an engine call is known to preserve single
occupancy: a register must draw a fresh uuid and find strictly fewer agents
than passable cells (so the spawn search cannot reach its unchecked
fallback), and a tick must likewise start with strictly fewer agents than
passable cells (for the respawn relocations). -/
def OpOK : Op → GameState → Prop
  | Op.register _ _ newId _ _ _ _, s =>
      (∀ b ∈ s.agents, b.id ≠ newId) ∧ s.agents.length < passableCount s.terrain
  | Op.tick _ _ _, s => s.agents.length < passableCount s.terrain
  | _, _ => True

def GoodStep (s s2 : GameState) : Prop := ∃ op, OpOK op s ∧ s2 = applyOp op s

def GoodReachable : GameState → GameState → Prop := Relation.ReflTransGen GoodStep

lemma inv_applyOp {s : GameState} {op : Op} (hInv : Inv s)
    (hbw : BorderWalls s.terrain) (hok : OpOK op s) :
    Inv (applyOp op s) ∧ (applyOp op s).terrain = s.terrain := by
  cases op with
  | register hash now newId cands sessionId name secret =>
    exact register_inv hash now newId cands sessionId name secret s hInv hbw hok.2 hok.1
  | move now agentId direction => exact move_inv now agentId direction s hInv
  | attack now roll agentId direction => exact attack_inv now roll agentId direction s hInv
  | gather now agentId => exact gather_inv now agentId s hInv
  | useSkill now roll agentId skillName direction =>
    exact useSkill_inv now roll agentId skillName direction s hInv
  | tick now rcands sinputs => exact tick_inv now rcands sinputs hInv hbw hok

instance (s : GameState) : Decidable (SingleOcc s) := by
  unfold SingleOcc
  exact List.instDecidablePairwise _

/-- A map with exactly two passable cells (the centre cell (25,25) among
them), used to exercise the spawn fallback. -/
def demoTerrain : Int → Int → Terrain :=
  fun x y => if (x = 25 ∨ x = 26) ∧ y = 25 then Terrain.OPEN else Terrain.WALL

def c1RegOp : Op :=
  Op.register (fun x => x) 0 "agA" [] "s1" "agA" none

lemma reachable_applyOps (ops : List Op) (s : GameState) :
    Reachable s (applyOps ops s) := by
  induction ops generalizing s with
  | nil => exact Relation.ReflTransGen.refl
  | cons op tl ih =>
    show Reachable s (applyOps tl (applyOp op s))
    exact Relation.ReflTransGen.head ⟨op, rfl⟩ (ih (applyOp op s))

def c1Ops : List Op :=
  [Op.register (fun x => x) 0 "agA" [] "s1" "agA" none,
   Op.register (fun x => x) 0 "agB" [] "s2" "agB" none,
   Op.register (fun x => x) 0 "agC" [] "s3" "agC" none]

def c1Bad : GameState := applyOps c1Ops (initState demoTerrain)

/-- C1 (amended): along any sequence of register, move, attack, gather,
useSkill and tick operations from the initial state in which every register
draws a fresh uuid and every register and every tick begins with strictly
fewer agents than passable cells, at most one alive agent occupies any grid
cell.  The unconditioned claim is false: the spawn search's final fallback
returns the map centre without an occupancy check (see
the accompanying counterexample). -/
theorem single_occupancy_of_goodReachable (t : Int → Int → Terrain)
    (hbw : BorderWalls t) (s : GameState)
    (h : GoodReachable (initState t) s) : SingleOcc s := by
  have h2 : Relation.ReflTransGen GoodStep (initState t) s := h
  clear h
  have key : Inv s ∧ s.terrain = t := by
    induction h2 with
    | refl => exact ⟨⟨List.Pairwise.nil, List.nodup_nil⟩, rfl⟩
    | tail hr hstep ih =>
      rename_i b c
      obtain ⟨op, hok, heq⟩ := hstep
      subst heq
      have hbw2 : BorderWalls b.terrain := by rw [ih.2]; exact hbw
      obtain ⟨g1, g2⟩ := inv_applyOp ih.1 hbw2 hok
      exact ⟨g1, g2.trans ih.2⟩
  exact key.1.1

/-- Witness for `single_occupancy_of_goodReachable`: on the two-cell demo
map, one guarded registration from the empty initial state yields a state
satisfying single occupancy. -/
theorem single_occupancy_of_goodReachable_witness :
    BorderWalls demoTerrain ∧
    GoodReachable (initState demoTerrain) (applyOp c1RegOp (initState demoTerrain)) ∧
    SingleOcc (applyOp c1RegOp (initState demoTerrain)) := by
  have hbw : BorderWalls demoTerrain := by
    intro x y h
    unfold demoTerrain
    rw [if_neg]
    rintro ⟨hx, hy⟩
    rcases h with h | h | h | h <;> rcases hx with hx | hx <;> omega
  have hok : OpOK c1RegOp (initState demoTerrain) := by
    show (∀ b ∈ ([] : List Agent), b.id ≠ "agA") ∧ 0 < passableCount demoTerrain
    constructor
    · intro b hb
      exact absurd hb (List.not_mem_nil b)
    · unfold passableCount
      apply Finset.card_pos.mpr
      refine ⟨(25, 25), Finset.mem_filter.mpr ⟨?_, ?_⟩⟩
      · unfold cellsFinset
        rw [Finset.mem_product]
        constructor <;> rw [Finset.mem_Icc] <;> constructor <;> decide
      · decide
  have hreach : GoodReachable (initState demoTerrain) (applyOp c1RegOp (initState demoTerrain)) :=
    Relation.ReflTransGen.single ⟨c1RegOp, hok, rfl⟩
  exact ⟨hbw, hreach, single_occupancy_of_goodReachable demoTerrain hbw _ hreach⟩

set_option maxHeartbeats 4000000 in
set_option maxRecDepth 10000 in
/-- C1 counterexample: on a map with exactly two passable cells, three
registrations drive the spawn search into its final fallback, which returns
the map centre (25,25) without any occupancy check; the third agent lands on
the cell the first (alive) agent already occupies, so a reachable state
violates single occupancy. -/
theorem register_spawn_fallback_collides :
    Reachable (initState demoTerrain) c1Bad ∧ ¬ SingleOcc c1Bad :=
  ⟨reachable_applyOps c1Ops (initState demoTerrain), by decide⟩

end BattleClaw
